import Mathlib

/-!
# request_last_invoice.js: one request-reply transaction over a message broker

A shallow embedding of `requestLastInvoice` and of its listener `onResponse`.

* The broker client (`amqplib`), `uuid.v4` and the clock (`moment`) are collaborators
  outside the file; their answers are inputs of the model (`Broker`, `Schedule`). The
  builtins of the JavaScript runtime that the file calls (`Buffer.prototype.toString`,
  `JSON.parse`, the conversion of a number inside a template literal) are the fields of
  a `Runtime` argument.
* Asynchronous delivery is made explicit: a `Schedule` lists the messages handed to the
  listener before the wait loop starts and during each one-second sleep, together with
  the clock reading taken at each poll.
* `process.exit` ends the process on the spot, so a run has three ways to leave the
  function (`returned`, `threw`, `exited`), and `pending` when the schedule ends while
  the loop is still polling.
-/

namespace RequestLastInvoice

/-! ## Values -/

/-- A JavaScript value of the kind `JSON.parse` produces. Numbers are integers here. -/
inductive JSValue where
  | null
  | bool (b : Bool)
  | num (n : Int)
  | str (s : String)
  | arr (items : List JSValue)
  | obj (fields : List (String × JSValue))

/-- JavaScript truthiness, as tested by `!responseReceived`: `null`, `false`, `0` and the
empty string are falsy, every array and object is truthy. -/
def JSValue.truthy : JSValue → Bool
  | .null => false
  | .bool b => b
  | .num n => n != 0
  | .str s => s != ""
  | .arr _ => true
  | .obj _ => true

/-- A JavaScript number, as the argument `timeout` can be: a finite value (every finite
double is a rational) or one of the three special values. -/
inductive JSNumber where
  | finite (q : ℚ)
  | posInf
  | negInf
  | nan
deriving DecidableEq

/-- The test `seconds > timeout` of line 63 for the whole number `seconds`. Every
comparison with NaN is false. -/
def JSNumber.exceededBy (timeout : JSNumber) (seconds : Int) : Bool :=
  match timeout with
  | .finite q => decide (q < (seconds : ℚ))
  | .posInf => false
  | .negInf => true
  | .nan => false

/-- The bytes of a `Buffer`, each below 256. -/
abbrev Buffer := List Nat

/-- The builtins of the JavaScript runtime used by the file: `Buffer.prototype.toString`
(UTF-8 decoding), `JSON.parse` (`none` when it throws) and the conversion of a number to
text inside a template literal. -/
structure Runtime where
  bufferToString : Buffer → String
  jsonParse : String → Option JSValue
  numberToString : JSNumber → String

/-- A JavaScript error object: its optional `code` property and its `message`. -/
structure JSError where
  code : Option String
  message : String
deriving DecidableEq, Repr

/-- An inbound message: `msg.properties.correlationId` (absent when the header is not
set) and the body `msg.content`. -/
structure Message where
  correlationId : Option String
  content : Buffer
deriving DecidableEq, Repr

/-! ## The listener (lines 30-40) -/

/-- The record stored when `JSON.parse` throws (line 37); `text` is
`msg.content.toString()`. -/
def parseFailure (text : String) : JSValue :=
  .obj [("error", .str "Failed to parse response as JSON"), ("raw", .str text)]

/-- The value the `try`/`catch` of lines 34-38 assigns for a message body: the value
parsed from `msg.content.toString()`, or the failure record when `JSON.parse` throws. -/
def decode (js : Runtime) (content : Buffer) : JSValue :=
  match js.jsonParse (js.bufferToString content) with
  | some v => v
  | none => parseFailure (js.bufferToString content)

/-- The listener `onResponse` as a transformer of the variable `responseReceived`:
the variable is assigned only when `msg.properties.correlationId === correlationId`. -/
def onResponse (js : Runtime) (correlationId : String)
    (responseReceived : JSValue) (msg : Message) : JSValue :=
  if msg.correlationId = some correlationId then
    decode js msg.content
  else
    responseReceived

/-- The listener run on a batch of messages, in arrival order. -/
def deliver (js : Runtime) (correlationId : String)
    (responseReceived : JSValue) (msgs : List Message) : JSValue :=
  msgs.foldl (onResponse js correlationId) responseReceived

/-! ## The environment -/

/-- What the broker client answers during one call. `some e` means the awaited operation
rejects (or throws) with `e`. `closed` is the truthiness of `connection.closed` when the
`finally` block reads it, `uuid` is the value of `uuid.v4()`. -/
structure Broker where
  connect : Option JSError
  createChannel : Option JSError
  assertQueue : Except JSError String
  consume : Option JSError
  publish : Option JSError
  closed : Bool
  close : Option JSError
  uuid : String

/-- One iteration of the wait loop that reaches the deadline test: the milliseconds
between `startTime` and the `moment()` read in that iteration, and the messages handed to
the listener during the sleep that follows it. -/
structure Tick where
  elapsedMs : Nat
  delivered : List Message
deriving DecidableEq, Repr

/-- The deliveries of one call: `early` are the messages handed to the listener between
its registration and the first test of the loop condition. -/
structure Schedule where
  early : List Message
  ticks : List Tick
deriving DecidableEq, Repr

/-- The observable operations of one call, in order. -/
inductive Op where
  | connect
  | createChannel
  | assertQueue (name : String) (exclusive : Bool)
  | consume (queue : String) (noAck : Bool)
  | publish (exchange routingKey : String) (body : JSValue) (replyTo correlationId : String)
  | consoleLog (text : String)
  | poll
  | sleep (ms : Nat)
  | consoleError (text : String) (err : Option JSError)
  | exit (code : Nat)
  | close

/-- How control leaves `requestLastInvoice`. -/
inductive Outcome where
  | returned (value : JSValue)
  | threw (err : JSError)
  | exited (code : Nat)
  | pending

/-- A run: the operations performed and the way the function was left. -/
structure Run where
  trace : List Op
  outcome : Outcome

/-! ## The wait loop (lines 61-67) -/

/-- Whole seconds elapsed at a poll: `moment().diff(startTime, 'seconds')`. -/
def Tick.seconds (t : Tick) : Int :=
  ((t.elapsedMs / 1000 : Nat) : Int)

/-- The error thrown at line 64; the timeout is rendered by the template literal. -/
def timeoutError (js : Runtime) (timeout : JSNumber) : JSError :=
  ⟨none, "No response received after " ++ js.numberToString timeout ++ " seconds"⟩

/-- The loop `while (!responseReceived) { if (diff > timeout) throw ...; sleep }`.
Each test of the loop condition is recorded as `poll`. The result is `none` when the
schedule ends with the loop still running. -/
def waitLoop (js : Runtime) (correlationId : String) (timeout : JSNumber) :
    List Tick → JSValue → List Op × Option (Except JSError JSValue)
  | [], responseReceived =>
    if responseReceived.truthy then ([.poll], some (.ok responseReceived))
    else ([.poll], none)
  | t :: rest, responseReceived =>
    if responseReceived.truthy then ([.poll], some (.ok responseReceived))
    else if timeout.exceededBy t.seconds then
      ([.poll], some (.error (timeoutError js timeout)))
    else
      let r := waitLoop js correlationId timeout rest
        (deliver js correlationId responseReceived t.delivered)
      (.poll :: .sleep 1000 :: r.1, r.2)

/-! ## The function (lines 5-83) -/

/-- What the `try` block leaves behind: the operations so far, whether the variable
`connection` was assigned, and the completion (`none`: still polling). -/
structure TryResult where
  trace : List Op
  connection : Bool
  result : Option (Except JSError JSValue)

/-- The request body built at lines 46-50. -/
def requestMessage (cuit ptoVta cbteTipo : String) : JSValue :=
  .obj [("cuit", .str cuit), ("pto_vta", .str ptoVta), ("cbte_tipo", .str cbteTipo)]

/-- The `try` block, lines 8-69. -/
def tryBlock (js : Runtime) (env : Broker)
    (cuit ptoVta cbteTipo : String) (timeout : JSNumber) (sched : Schedule) : TryResult :=
  match env.connect with
  | some e => ⟨[.connect], false, some (.error e)⟩
  | none =>
    match env.createChannel with
    | some e => ⟨[.connect, .createChannel], true, some (.error e)⟩
    | none =>
      match env.assertQueue with
      | .error e => ⟨[.connect, .createChannel, .assertQueue "" true], true, some (.error e)⟩
      | .ok callbackQueue =>
        let correlationId := env.uuid
        match env.consume with
        | some e =>
          ⟨[.connect, .createChannel, .assertQueue "" true, .consume callbackQueue true],
            true, some (.error e)⟩
        | none =>
          let sent : List Op :=
            [.connect, .createChannel, .assertQueue "" true, .consume callbackQueue true,
              .publish "" "arca" (requestMessage cuit ptoVta cbteTipo) callbackQueue
                correlationId]
          match env.publish with
          | some e => ⟨sent, true, some (.error e)⟩
          | none =>
            let responseReceived := deliver js correlationId .null sched.early
            let w := waitLoop js correlationId timeout sched.ticks responseReceived
            ⟨sent ++ .consoleLog " [x] Sent request for last invoice, waiting for response..."
              :: w.1, true, w.2⟩

/-- The diagnostic written by the `catch` block, lines 71-75. -/
def catchLog (e : JSError) : Op :=
  if e.code = some "ECONNREFUSED" then .consoleError "Failed to connect to RabbitMQ" none
  else .consoleError "An error occurred:" (some e)

/-- The `finally` block, lines 77-82, run after the `try` block completed with
`outcome`: `close` is awaited when `connection` is set and `connection.closed` is falsy,
and an error of `close` replaces the completion. -/
def finallyBlock (env : Broker) (trace : List Op) (connection : Bool) (outcome : Outcome) :
    Run :=
  if connection && !env.closed then
    match env.close with
    | none => ⟨trace ++ [.close], outcome⟩
    | some e => ⟨trace ++ [.close], .threw e⟩
  else ⟨trace, outcome⟩

/-- The function `requestLastInvoice(cuit, ptoVta, cbteTipo, timeout = 30)`. A thrown
error is caught at line 70, logged, and `process.exit(1)` at line 76 ends the process:
nothing after it runs, the `finally` block included. -/
def requestLastInvoice (js : Runtime) (env : Broker)
    (cuit ptoVta cbteTipo : String) (timeout : Option JSNumber) (sched : Schedule) : Run :=
  let t := tryBlock js env cuit ptoVta cbteTipo (timeout.getD (.finite 30)) sched
  match t.result with
  | none => ⟨t.trace, .pending⟩
  | some (.error e) => ⟨t.trace ++ [catchLog e, .exit 1], .exited 1⟩
  | some (.ok v) => finallyBlock env t.trace t.connection (.returned v)

/-! ## Sample runtime -/

/-- The state of the UTF-8 decoder between two bytes: the code point collected so far,
the number of continuation bytes still expected, and the range allowed for the next
one. -/
structure Utf8State where
  codePoint : Nat
  needed : Nat
  lower : Nat
  upper : Nat

/-- No sequence is open. -/
def Utf8State.idle : Utf8State :=
  ⟨0, 0, 0x80, 0xBF⟩

/-- A byte read while no sequence is open: the characters it yields and the next state.
A byte that cannot start a sequence yields U+FFFD. -/
def utf8Lead (b : Nat) : List Char × Utf8State :=
  if b ≤ 0x7F then ([Char.ofNat b], .idle)
  else if 0xC2 ≤ b ∧ b ≤ 0xDF then ([], ⟨b % 32, 1, 0x80, 0xBF⟩)
  else if 0xE0 ≤ b ∧ b ≤ 0xEF then
    ([], ⟨b % 16, 2, if b = 0xE0 then 0xA0 else 0x80, if b = 0xED then 0x9F else 0xBF⟩)
  else if 0xF0 ≤ b ∧ b ≤ 0xF4 then
    ([], ⟨b % 8, 3, if b = 0xF0 then 0x90 else 0x80, if b = 0xF4 then 0x8F else 0xBF⟩)
  else ([Char.ofNat 0xFFFD], .idle)

/-- UTF-8 decoding with replacement: every maximal invalid part of the input yields one
U+FFFD, and an unexpected byte is read again as the start of a sequence. -/
def utf8Decode : List Nat → Utf8State → List Char
  | [], s => if s.needed = 0 then [] else [Char.ofNat 0xFFFD]
  | b :: rest, s =>
    if s.needed = 0 then (utf8Lead b).1 ++ utf8Decode rest (utf8Lead b).2
    else if s.lower ≤ b ∧ b ≤ s.upper then
      if s.needed = 1 then Char.ofNat (s.codePoint * 64 + b % 64) :: utf8Decode rest .idle
      else utf8Decode rest ⟨s.codePoint * 64 + b % 64, s.needed - 1, 0x80, 0xBF⟩
    else Char.ofNat 0xFFFD :: ((utf8Lead b).1 ++ utf8Decode rest (utf8Lead b).2)

/-- The text `Buffer.prototype.toString()` yields for a body. -/
def utf8ToString (bytes : Buffer) : String :=
  String.mk (utf8Decode bytes .idle)

/-- The body whose bytes are the characters of an ASCII text. -/
def ascii (s : String) : Buffer :=
  s.toList.map Char.toNat

/-- The reply body of the end-to-end scenario, an object with `invoice_number` 42 and
`date` "2024-01-01". -/
def invoiceBody : String :=
  "\x7b\"invoice_number\": 42, \"date\": \"2024-01-01\"\x7d"

/-- A second reply body, an object with `invoice_number` 7. -/
def shortBody : String :=
  "\x7b\"invoice_number\": 7\x7d"

/-- The answers of `JSON.parse` on the texts used in the examples below; every other
text used there is not JSON. -/
def sampleParse (content : String) : Option JSValue :=
  if content = invoiceBody then
    some (.obj [("invoice_number", .num 42), ("date", .str "2024-01-01")])
  else if content = shortBody then some (.obj [("invoice_number", .num 7)])
  else if content = "null" then some .null
  else if content = "false" then some (.bool false)
  else if content = "0" then some (.num 0)
  else if content = "\"\"" then some (.str "")
  else none

/-- The text a template literal yields for the numbers used in the examples below: the
decimal digits of a whole number below 2^53 in absolute value, and the names of the
special values. No other finite value is used below; the empty text stands for them. -/
def sampleNumberToString : JSNumber → String
  | .finite q => if q.den = 1 ∧ q.num.natAbs < 2 ^ 53 then toString q.num else ""
  | .posInf => "Infinity"
  | .negInf => "-Infinity"
  | .nan => "NaN"

/-- The runtime of the examples below. -/
def sampleRuntime : Runtime :=
  ⟨utf8ToString, sampleParse, sampleNumberToString⟩

/-! ## Sample inputs -/

/-- A broker on which every operation succeeds; the reply queue is `amq.gen-1`. -/
def okBroker : Broker :=
  ⟨none, none, .ok "amq.gen-1", none, none, false, none, "3f2c"⟩

/-- A broker on which every operation succeeds except `close`, which rejects. -/
def closeFailsBroker : Broker :=
  ⟨none, none, .ok "amq.gen-1", none, none, false, some ⟨none, "Connection closed"⟩, "3f2c"⟩

/-- A broker whose `connect` is refused. -/
def refusedBroker : Broker :=
  ⟨some ⟨some "ECONNREFUSED", "connect ECONNREFUSED 127.0.0.1:5672"⟩, none, .ok "amq.gen-1",
    none, none, false, none, "3f2c"⟩

/-- A broker whose `connect` fails on the credentials. -/
def deniedBroker : Broker :=
  ⟨some ⟨none, "ACCESS_REFUSED"⟩, none, .ok "amq.gen-1", none, none, false, none, "3f2c"⟩

/-- A broker that accepts the connection and has no channel left. -/
def exhaustedBroker : Broker :=
  ⟨none, some ⟨none, "No channels left to allocate"⟩, .ok "amq.gen-1", none, none, false,
    none, "3f2c"⟩

/-- A clock that reads exactly `k` seconds at the `k`-th poll, with no deliveries. -/
def quietTicks (n : Nat) : List Tick :=
  (List.range n).map fun k => ⟨1000 * k, []⟩

/-- A schedule of `n` polls read at exactly 0, 1, 2, ... seconds with no delivery. -/
def quietSchedule (n : Nat) : Schedule :=
  ⟨[], quietTicks n⟩

/-- A schedule of `n` polls read at exactly 0, 1, 2, ... seconds in which the message `m`
is handed to the listener during the sleep that follows poll number `slot`. -/
def replySchedule (n slot : Nat) (m : Message) : Schedule :=
  ⟨[], (List.range n).map fun k => ⟨1000 * k, if k = slot then [m] else []⟩⟩

/-- A schedule with two replies carrying the token of `okBroker`, both handed over
during the first sleep. -/
def twoReplies : Schedule :=
  ⟨[], [⟨0, [⟨some "3f2c", ascii invoiceBody⟩, ⟨some "3f2c", ascii shortBody⟩]⟩,
    ⟨1000, []⟩]⟩

/-! ## Vocabulary for stating properties of runs -/

/-- The last message of a batch that carries the token `correlationId`, if any. -/
def lastMatch (correlationId : String) (msgs : List Message) : Option Message :=
  (msgs.filter fun m => decide (m.correlationId = some correlationId)).getLast?

/-- All the messages delivered during the sleeps of a list of loop iterations. -/
def Tick.batch : List Tick → List Message
  | [] => []
  | t :: rest => t.delivered ++ Tick.batch rest

/-- The messages handed to the listener before the `k`-th test of the loop condition
(the first test is number `0`). -/
def Schedule.deliveredBefore (sched : Schedule) (k : Nat) : List Message :=
  sched.early ++ Tick.batch (sched.ticks.take k)

/-- The value of `responseReceived` at the `k`-th test of the loop condition. -/
def stored (js : Runtime) (correlationId : String) (sched : Schedule)
    (k : Nat) : JSValue :=
  deliver js correlationId .null (sched.deliveredBefore k)

/-- The loop gets as far as its `k`-th test: at every earlier test the stored value was
falsy and the elapsed whole seconds did not exceed the timeout. -/
def stillWaiting (js : Runtime) (correlationId : String) (timeout : JSNumber)
    (sched : Schedule) (k : Nat) : Prop :=
  ∀ j, j < k → (stored js correlationId sched j).truthy = false ∧
    ∀ t, sched.ticks[j]? = some t → timeout.exceededBy t.seconds = false

/-- The operations of `k` iterations of the loop that end in a sleep. -/
def waiting : Nat → List Op
  | 0 => []
  | k + 1 => .poll :: .sleep 1000 :: waiting k

/-- The operations up to and including the publish, for the reply queue `queue`. -/
def sentOps (cuit ptoVta cbteTipo queue correlationId : String) : List Op :=
  [.connect, .createChannel, .assertQueue "" true, .consume queue true,
    .publish "" "arca" (requestMessage cuit ptoVta cbteTipo) queue correlationId]

/-- The timeout is at most zero: `timeout <= 0` holds in JavaScript. -/
def JSNumber.nonPositive : JSNumber → Prop
  | .finite q => q ≤ 0
  | .negInf => True
  | _ => False

/-- The timeout is below zero. -/
def JSNumber.negative : JSNumber → Prop
  | .finite q => q < 0
  | .negInf => True
  | _ => False

/-- Every acquisition step succeeds, and the broker names the reply queue `queue`. -/
def Broker.acquires (env : Broker) (queue : String) : Prop :=
  env.connect = none ∧ env.createChannel = none ∧ env.assertQueue = .ok queue ∧
    env.consume = none

/-- The error of the first acquisition step that fails (connect, createChannel,
assertQueue, consume, in that order), if any. -/
def Broker.acquisitionError (env : Broker) : Option JSError :=
  match env.connect with
  | some e => some e
  | none =>
    match env.createChannel with
    | some e => some e
    | none =>
      match env.assertQueue with
      | .error e => some e
      | .ok _ => env.consume

/-- The operations performed up to the acquisition step that fails, that step
included. -/
def Broker.failedSteps (env : Broker) : List Op :=
  match env.connect with
  | some _ => [.connect]
  | none =>
    match env.createChannel with
    | some _ => [.connect, .createChannel]
    | none =>
      match env.assertQueue with
      | .error _ => [.connect, .createChannel, .assertQueue "" true]
      | .ok q => [.connect, .createChannel, .assertQueue "" true, .consume q true]

/-- Recognises a `publish` operation. -/
def Op.isPublish : Op → Bool
  | .publish _ _ _ _ _ => true
  | _ => false

/-- Recognises a `consume` registration. -/
def Op.isConsume : Op → Bool
  | .consume _ _ => true
  | _ => false

/-- Recognises a test of the loop condition. -/
def Op.isPoll : Op → Bool
  | .poll => true
  | _ => false

/-- Recognises a call of `connection.close`. -/
def Op.isClose : Op → Bool
  | .close => true
  | _ => false

/-- Recognises a call of `amqplib.connect`. -/
def Op.isConnect : Op → Bool
  | .connect => true
  | _ => false

/-! ## The listener -/

theorem onResponse_of_match (js : Runtime) (c : String) (r : JSValue)
    (m : Message) (h : m.correlationId = some c) :
    onResponse js c r m = decode js m.content := by
  simp [onResponse, h]

theorem onResponse_of_ne (js : Runtime) (c : String) (r : JSValue)
    (m : Message) (h : m.correlationId ≠ some c) : onResponse js c r m = r := by
  simp [onResponse, h]

theorem deliver_nil (js : Runtime) (c : String) (r : JSValue) :
    deliver js c r [] = r := rfl

theorem deliver_cons (js : Runtime) (c : String) (r : JSValue)
    (m : Message) (ms : List Message) :
    deliver js c r (m :: ms) = deliver js c (onResponse js c r m) ms := rfl

theorem deliver_append (js : Runtime) (c : String) (r : JSValue)
    (xs ys : List Message) :
    deliver js c r (xs ++ ys) = deliver js c (deliver js c r xs) ys := by
  simp [deliver, List.foldl_append]

theorem deliver_of_no_match (js : Runtime) (c : String) (r : JSValue)
    (ms : List Message) (h : ∀ x ∈ ms, x.correlationId ≠ some c) :
    deliver js c r ms = r := by
  induction ms generalizing r with
  | nil => rfl
  | cons m ms ih =>
    rw [deliver_cons, onResponse_of_ne js c r m (h m (List.mem_cons_self m ms))]
    exact ih r fun x hx => h x (List.mem_cons_of_mem m hx)

theorem lastMatch_append_singleton (c : String) (xs : List Message) (m : Message) :
    lastMatch c (xs ++ [m]) =
      if m.correlationId = some c then some m else lastMatch c xs := by
  unfold lastMatch
  by_cases h : m.correlationId = some c
  · simp [List.filter_append, List.filter_cons, h]
  · simp [List.filter_append, List.filter_cons, h]

/-- The stored value after a batch is the decoding of the last matching message of the
batch, and is unchanged when the batch has no matching message. -/
theorem deliver_eq_lastMatch (js : Runtime) (c : String) (r : JSValue)
    (ms : List Message) :
    deliver js c r ms =
      match lastMatch c ms with
      | some m => decode js m.content
      | none => r := by
  induction ms using List.reverseRecOn with
  | nil => rfl
  | append_singleton xs m ih =>
    rw [deliver_append, deliver_cons, deliver_nil, lastMatch_append_singleton]
    by_cases h : m.correlationId = some c
    · simp [h, onResponse_of_match js c _ m h]
    · simp [h, onResponse_of_ne js c _ m h, ih]

theorem deliver_of_last (js : Runtime) (c : String) (r : JSValue)
    (before after : List Message) (m : Message) (hm : m.correlationId = some c)
    (hafter : ∀ x ∈ after, x.correlationId ≠ some c) :
    deliver js c r (before ++ m :: after) = decode js m.content := by
  rw [deliver_append, deliver_cons, onResponse_of_match js c _ m hm]
  exact deliver_of_no_match js c _ after hafter

theorem parseFailure_truthy (content : String) : (parseFailure content).truthy = true := rfl

/-! ## The wait loop -/

theorem waitLoop_truthy (js : Runtime) (c : String) (T : JSNumber)
    (ticks : List Tick) (r : JSValue) (h : r.truthy = true) :
    waitLoop js c T ticks r = ([.poll], some (.ok r)) := by
  cases ticks <;> simp [waitLoop, h]

theorem waitLoop_timeout (js : Runtime) (c : String) (T : JSNumber)
    (t : Tick) (rest : List Tick) (r : JSValue) (h : r.truthy = false) (ht : T.exceededBy t.seconds = true) :
    waitLoop js c T (t :: rest) r = ([.poll], some (.error (timeoutError js T))) := by
  simp [waitLoop, h, ht]

theorem waitLoop_step (js : Runtime) (c : String) (T : JSNumber)
    (t : Tick) (rest : List Tick) (r : JSValue) (h : r.truthy = false)
    (ht : T.exceededBy t.seconds = false) :
    waitLoop js c T (t :: rest) r =
      (.poll :: .sleep 1000 :: (waitLoop js c T rest (deliver js c r t.delivered)).1,
        (waitLoop js c T rest (deliver js c r t.delivered)).2) := by
  simp [waitLoop, h, ht]

theorem deliver_batch_succ (js : Runtime) (c : String) (r : JSValue)
    (t : Tick) (rest : List Tick) (j : Nat) :
    deliver js c r (Tick.batch ((t :: rest).take (j + 1))) =
      deliver js c (deliver js c r t.delivered) (Tick.batch (rest.take j)) := by
  simp [Tick.batch, deliver_append]

/-- If the loop is still waiting before its `k`-th test and finds a truthy value there,
it completes with that value. -/
theorem waitLoop_ok_at (js : Runtime) (c : String) (T : JSNumber) (k : Nat) :
    ∀ (ticks : List Tick) (r : JSValue), k ≤ ticks.length →
      (∀ j, j < k → (deliver js c r (Tick.batch (ticks.take j))).truthy = false ∧
        ∀ t, ticks[j]? = some t → T.exceededBy t.seconds = false) →
      (deliver js c r (Tick.batch (ticks.take k))).truthy = true →
      (waitLoop js c T ticks r).2 =
        some (.ok (deliver js c r (Tick.batch (ticks.take k)))) := by
  induction k with
  | zero =>
    intro ticks r _ _ htr
    have hr : r.truthy = true := by simpa [Tick.batch, deliver_nil] using htr
    simp [Tick.batch, deliver_nil, waitLoop_truthy js c T ticks r hr]
  | succ k ih =>
    intro ticks r hk hwait htr
    cases ticks with
    | nil => simp at hk
    | cons t rest =>
      have h0 := hwait 0 (Nat.succ_pos k)
      have hr : r.truthy = false := by simpa [Tick.batch, deliver_nil] using h0.1
      have ht : T.exceededBy t.seconds = false := h0.2 t (by simp)
      rw [waitLoop_step js c T t rest r hr ht, deliver_batch_succ]
      rw [deliver_batch_succ] at htr
      refine ih rest _ (by simpa using hk) ?_ htr
      intro j hj
      have hj1 := hwait (j + 1) (Nat.succ_lt_succ hj)
      rw [deliver_batch_succ] at hj1
      refine ⟨hj1.1, fun u hu => hj1.2 u ?_⟩
      simpa using hu

/-- If the loop is still waiting before its `k`-th test and finds there a falsy value and
an elapsed time above the timeout, it throws the timeout error. -/
theorem waitLoop_error_at (js : Runtime) (c : String) (T : JSNumber) (k : Nat) :
    ∀ (ticks : List Tick) (r : JSValue) (t : Tick), ticks[k]? = some t →
      (∀ j, j < k → (deliver js c r (Tick.batch (ticks.take j))).truthy = false ∧
        ∀ u, ticks[j]? = some u → T.exceededBy u.seconds = false) →
      (deliver js c r (Tick.batch (ticks.take k))).truthy = false → T.exceededBy t.seconds = true →
      (waitLoop js c T ticks r).2 = some (.error (timeoutError js T)) := by
  induction k with
  | zero =>
    intro ticks r t hk _ hfal hT
    have hr : r.truthy = false := by simpa [Tick.batch, deliver_nil] using hfal
    cases ticks with
    | nil => simp at hk
    | cons u rest =>
      have hu : u = t := by simpa using hk
      subst hu
      rw [waitLoop_timeout js c T u rest r hr hT]
  | succ k ih =>
    intro ticks r t hk hwait hfal hT
    cases ticks with
    | nil => simp at hk
    | cons u rest =>
      have h0 := hwait 0 (Nat.succ_pos k)
      have hr : r.truthy = false := by simpa [Tick.batch, deliver_nil] using h0.1
      have hu : T.exceededBy u.seconds = false := h0.2 u (by simp)
      rw [waitLoop_step js c T u rest r hr hu]
      rw [deliver_batch_succ] at hfal
      refine ih rest _ t (by simpa using hk) ?_ hfal hT
      intro j hj
      have hj1 := hwait (j + 1) (Nat.succ_lt_succ hj)
      rw [deliver_batch_succ] at hj1
      refine ⟨hj1.1, fun v hv => hj1.2 v ?_⟩
      simpa using hv

/-- The loop only ever completes with a truthy value that was the stored value at one of
its tests, or with the timeout error. -/
theorem waitLoop_result_cases (js : Runtime) (c : String) (T : JSNumber) :
    ∀ (ticks : List Tick) (r : JSValue) (x : Except JSError JSValue),
      (waitLoop js c T ticks r).2 = some x →
      (∃ k, k ≤ ticks.length ∧ x = .ok (deliver js c r (Tick.batch (ticks.take k))) ∧
        (deliver js c r (Tick.batch (ticks.take k))).truthy = true) ∨
      (∃ k t, ticks[k]? = some t ∧ x = .error (timeoutError js T) ∧
        (deliver js c r (Tick.batch (ticks.take k))).truthy = false ∧ T.exceededBy t.seconds = true) := by
  intro ticks
  induction ticks with
  | nil =>
    intro r x h
    by_cases hr : r.truthy = true
    · left
      refine ⟨0, le_refl _, ?_, by simpa [Tick.batch, deliver_nil] using hr⟩
      simpa [waitLoop, hr, Tick.batch, deliver_nil] using h.symm
    · simp [waitLoop, hr] at h
  | cons t rest ih =>
    intro r x h
    by_cases hr : r.truthy = true
    · left
      refine ⟨0, Nat.zero_le _, ?_, by simpa [Tick.batch, deliver_nil] using hr⟩
      rw [waitLoop_truthy js c T _ r hr] at h
      simpa [Tick.batch, deliver_nil] using h.symm
    · have hr0 : r.truthy = false := by simpa using hr
      by_cases ht : T.exceededBy t.seconds = true
      · right
        refine ⟨0, t, by simp, ?_, by simpa [Tick.batch, deliver_nil] using hr0, ht⟩
        rw [waitLoop_timeout js c T t rest r hr0 ht] at h
        simpa using h.symm
      · rw [waitLoop_step js c T t rest r hr0 (Bool.eq_false_iff.mpr ht)] at h
        rcases ih _ x h with ⟨k, hk, hx, htr⟩ | ⟨k, u, hu, hx, hfal, hT⟩
        · left
          refine ⟨k + 1, by simpa using hk, ?_, ?_⟩
          · rw [deliver_batch_succ]; exact hx
          · rw [deliver_batch_succ]; exact htr
        · right
          refine ⟨k + 1, u, by simpa using hu, hx, ?_, hT⟩
          rw [deliver_batch_succ]; exact hfal

/-- The loop ends within the schedule as soon as one of its iterations reads an elapsed
time above the timeout. -/
theorem waitLoop_terminates (js : Runtime) (c : String) (T : JSNumber) :
    ∀ (ticks : List Tick) (r : JSValue), (∃ t ∈ ticks, T.exceededBy t.seconds = true) →
      (waitLoop js c T ticks r).2 ≠ none := by
  intro ticks
  induction ticks with
  | nil => intro r h; simp at h
  | cons t rest ih =>
    intro r h
    by_cases hr : r.truthy = true
    · rw [waitLoop_truthy js c T _ r hr]; simp
    · have hr0 : r.truthy = false := by simpa using hr
      by_cases ht : T.exceededBy t.seconds = true
      · rw [waitLoop_timeout js c T t rest r hr0 ht]; simp
      · rw [waitLoop_step js c T t rest r hr0 (Bool.eq_false_iff.mpr ht)]
        apply ih
        rcases h with ⟨u, hu, hT⟩
        rcases List.mem_cons.mp hu with rfl | hu
        · exact absurd hT ht
        · exact ⟨u, hu, hT⟩

theorem waitLoop_head_poll (js : Runtime) (c : String) (T : JSNumber)
    (ticks : List Tick) (r : JSValue) :
    ∃ tail, (waitLoop js c T ticks r).1 = .poll :: tail := by
  cases ticks with
  | nil => by_cases hr : r.truthy = true <;> simp [waitLoop, hr]
  | cons t rest =>
    by_cases hr : r.truthy = true
    · simp [waitLoop, hr]
    · by_cases ht : T.exceededBy t.seconds = true <;> simp [waitLoop, hr, ht]

/-! ## The function -/

theorem stored_eq (js : Runtime) (c : String) (sched : Schedule) (k : Nat) :
    stored js c sched k =
      deliver js c (deliver js c .null sched.early) (Tick.batch (sched.ticks.take k)) := by
  simp [stored, Schedule.deliveredBefore, deliver_append]

theorem tryBlock_of_acquires (js : Runtime) (env : Broker)
    (cuit ptoVta cbteTipo : String) (T : JSNumber) (sched : Schedule) (q : String)
    (h : env.acquires q) (hp : env.publish = none) :
    tryBlock js env cuit ptoVta cbteTipo T sched =
      ⟨[.connect, .createChannel, .assertQueue "" true, .consume q true,
          .publish "" "arca" (requestMessage cuit ptoVta cbteTipo) q env.uuid,
          .consoleLog " [x] Sent request for last invoice, waiting for response..."] ++
          (waitLoop js env.uuid T sched.ticks (deliver js env.uuid .null sched.early)).1,
        true,
        (waitLoop js env.uuid T sched.ticks (deliver js env.uuid .null sched.early)).2⟩ := by
  obtain ⟨h1, h2, h3, h4⟩ := h
  simp [tryBlock, h1, h2, h3, h4, hp]

/-- The `try` block completes with the value stored at the `k`-th test of the loop
condition when the loop is still waiting before it and the value is truthy. -/
theorem tryBlock_ok_at (js : Runtime) (env : Broker)
    (cuit ptoVta cbteTipo : String) (T : JSNumber) (sched : Schedule) (q : String) (k : Nat)
    (h : env.acquires q) (hp : env.publish = none) (hk : k ≤ sched.ticks.length)
    (hwait : stillWaiting js env.uuid T sched k)
    (htr : (stored js env.uuid sched k).truthy = true) :
    (tryBlock js env cuit ptoVta cbteTipo T sched).result =
      some (.ok (stored js env.uuid sched k)) := by
  rw [tryBlock_of_acquires js env cuit ptoVta cbteTipo T sched q h hp]
  simp only [stored_eq] at htr ⊢
  refine waitLoop_ok_at js env.uuid T k sched.ticks _ hk ?_ htr
  intro j hj
  have := hwait j hj
  rwa [stored_eq] at this

/-- The `try` block throws the timeout error when the loop is still waiting before its
`k`-th test and finds there a falsy value and an elapsed time above the timeout. -/
theorem tryBlock_error_at (js : Runtime) (env : Broker)
    (cuit ptoVta cbteTipo : String) (T : JSNumber) (sched : Schedule) (q : String) (k : Nat)
    (t : Tick) (h : env.acquires q) (hp : env.publish = none) (hk : sched.ticks[k]? = some t)
    (hwait : stillWaiting js env.uuid T sched k)
    (hfal : (stored js env.uuid sched k).truthy = false) (hT : T.exceededBy t.seconds = true) :
    (tryBlock js env cuit ptoVta cbteTipo T sched).result =
      some (.error (timeoutError js T)) := by
  rw [tryBlock_of_acquires js env cuit ptoVta cbteTipo T sched q h hp]
  simp only [stored_eq] at hfal
  refine waitLoop_error_at js env.uuid T k sched.ticks _ t hk ?_ hfal hT
  intro j hj
  have := hwait j hj
  rwa [stored_eq] at this

theorem tryBlock_connection_of_ok (js : Runtime) (env : Broker)
    (cuit ptoVta cbteTipo : String) (T : JSNumber) (sched : Schedule) (v : JSValue)
    (h : (tryBlock js env cuit ptoVta cbteTipo T sched).result = some (.ok v)) :
    ∃ q, env.acquires q ∧ env.publish = none := by
  rcases env with ⟨c, ch, aq, cs, pb, cl, clo, u⟩
  cases c <;> cases ch <;> cases aq <;> cases cs <;> cases pb <;>
    simp_all [tryBlock, Broker.acquires]

/-- A value is returned whenever the `try` block completes with it and `close` does not
fail. -/
theorem requestLastInvoice_returns (js : Runtime) (env : Broker)
    (cuit ptoVta cbteTipo : String) (timeout : Option JSNumber) (sched : Schedule) (v : JSValue)
    (h : (tryBlock js env cuit ptoVta cbteTipo (timeout.getD (.finite 30)) sched).result =
      some (.ok v))
    (hclose : env.close = none) :
    (requestLastInvoice js env cuit ptoVta cbteTipo timeout sched).outcome =
      .returned v := by
  simp only [requestLastInvoice, h, finallyBlock, hclose]
  split <;> rfl

/-- Every error thrown inside the `try` block ends the process with status 1. -/
theorem requestLastInvoice_exits (js : Runtime) (env : Broker)
    (cuit ptoVta cbteTipo : String) (timeout : Option JSNumber) (sched : Schedule) (e : JSError)
    (h : (tryBlock js env cuit ptoVta cbteTipo (timeout.getD (.finite 30)) sched).result =
      some (.error e)) :
    requestLastInvoice js env cuit ptoVta cbteTipo timeout sched =
      ⟨(tryBlock js env cuit ptoVta cbteTipo (timeout.getD (.finite 30)) sched).trace ++
        [catchLog e, .exit 1], .exited 1⟩ := by
  simp only [requestLastInvoice, h]

/-- A reply that carries the token, is the last such reply before a test of the loop
condition that the loop reaches, and decodes to a truthy value, is returned. -/
theorem truthy_reply_is_returned (js : Runtime) (env : Broker)
    (cuit ptoVta cbteTipo : String) (timeout : Option JSNumber) (sched : Schedule) (q : String)
    (k : Nat) (before after : List Message) (m : Message)
    (hacq : env.acquires q) (hpub : env.publish = none) (hclose : env.close = none)
    (hid : m.correlationId = some env.uuid)
    (htr : (decode js m.content).truthy = true)
    (hk : k ≤ sched.ticks.length)
    (hwait : stillWaiting js env.uuid (timeout.getD (.finite 30)) sched k)
    (hm : sched.deliveredBefore k = before ++ m :: after)
    (hafter : ∀ x ∈ after, x.correlationId ≠ some env.uuid) :
    (requestLastInvoice js env cuit ptoVta cbteTipo timeout sched).outcome =
      .returned (decode js m.content) := by
  have hst : stored js env.uuid sched k = decode js m.content := by
    rw [stored, hm]
    exact deliver_of_last js env.uuid .null before after m hid hafter
  apply requestLastInvoice_returns _ _ _ _ _ _ _ _ _ hclose
  rw [← hst]
  exact tryBlock_ok_at js env cuit ptoVta cbteTipo _ sched q k hacq hpub hk hwait
    (by rw [hst]; exact htr)

theorem tryBlock_of_returned (js : Runtime) (env : Broker)
    (cuit ptoVta cbteTipo : String) (timeout : Option JSNumber) (sched : Schedule) (v : JSValue)
    (h : (requestLastInvoice js env cuit ptoVta cbteTipo timeout sched).outcome =
      .returned v) :
    (tryBlock js env cuit ptoVta cbteTipo (timeout.getD (.finite 30)) sched).result =
      some (.ok v) := by
  unfold requestLastInvoice at h
  cases hres : (tryBlock js env cuit ptoVta cbteTipo (timeout.getD (.finite 30)) sched).result with
  | none => simp [hres] at h
  | some x =>
    cases x with
    | error e => simp [hres] at h
    | ok w =>
      simp only [hres, finallyBlock] at h
      split at h
      · cases hc : env.close with
        | none => simp [hc] at h; rw [h]
        | some e => simp [hc] at h
      · simp at h; rw [h]

/-- A returned value is truthy and is the value stored at one of the tests of the loop
condition. -/
theorem returned_is_stored (js : Runtime) (env : Broker)
    (cuit ptoVta cbteTipo : String) (timeout : Option JSNumber) (sched : Schedule) (v : JSValue)
    (h : (requestLastInvoice js env cuit ptoVta cbteTipo timeout sched).outcome =
      .returned v) :
    ∃ k, k ≤ sched.ticks.length ∧ v = stored js env.uuid sched k ∧ v.truthy = true := by
  have hres := tryBlock_of_returned js env cuit ptoVta cbteTipo timeout sched v h
  obtain ⟨q, hacq, hpub⟩ :=
    tryBlock_connection_of_ok js env cuit ptoVta cbteTipo _ sched v hres
  rw [tryBlock_of_acquires js env cuit ptoVta cbteTipo _ sched q hacq hpub] at hres
  rcases waitLoop_result_cases js env.uuid _ sched.ticks _ _ hres with
    ⟨k, hk, hx, htr⟩ | ⟨k, t, _, hx, _, _⟩
  · refine ⟨k, hk, ?_, ?_⟩
    · rw [stored_eq]; exact Except.ok.inj hx
    · rw [Except.ok.inj hx]; exact htr
  · cases hx

/-! ## Traces -/

theorem waitLoop_ops (js : Runtime) (c : String) (T : JSNumber) :
    ∀ (ticks : List Tick) (r : JSValue) (op : Op), op ∈ (waitLoop js c T ticks r).1 →
      op = .poll ∨ op = .sleep 1000 := by
  intro ticks
  induction ticks with
  | nil =>
    intro r op h
    by_cases hr : r.truthy = true <;> simp [waitLoop, hr] at h <;> exact Or.inl h
  | cons t rest ih =>
    intro r op h
    by_cases hr : r.truthy = true
    · simp [waitLoop, hr] at h
      exact Or.inl h
    · by_cases ht : T.exceededBy t.seconds = true
      · simp [waitLoop, hr, ht] at h
        exact Or.inl h
      · simp only [waitLoop, hr, ht, if_false, Bool.false_eq_true, List.mem_cons] at h
        rcases h with h | h | h
        · exact Or.inl h
        · exact Or.inr h
        · exact ih _ op h

theorem catchLog_cases (e : JSError) :
    catchLog e = .consoleError "Failed to connect to RabbitMQ" none ∨
      catchLog e = .consoleError "An error occurred:" (some e) := by
  unfold catchLog
  split
  · exact Or.inl rfl
  · exact Or.inr rfl

/-- The operations that follow the `try` block: the diagnostic and the exit of the
`catch` block after a throw, `close` after a normal completion when `connection` is set
and not closed, nothing while the loop is still polling. -/
theorem requestLastInvoice_trace (js : Runtime) (env : Broker)
    (cuit ptoVta cbteTipo : String) (timeout : Option JSNumber) (sched : Schedule) :
    (requestLastInvoice js env cuit ptoVta cbteTipo timeout sched).trace =
      (tryBlock js env cuit ptoVta cbteTipo (timeout.getD (.finite 30)) sched).trace ++
        (match (tryBlock js env cuit ptoVta cbteTipo (timeout.getD (.finite 30)) sched).result with
          | none => []
          | some (.error e) => [catchLog e, .exit 1]
          | some (.ok _) =>
            if (tryBlock js env cuit ptoVta cbteTipo (timeout.getD (.finite 30)) sched).connection
              && !env.closed then [.close] else []) := by
  cases hres : (tryBlock js env cuit ptoVta cbteTipo (timeout.getD (.finite 30)) sched).result with
  | none => simp [requestLastInvoice, hres]
  | some x =>
    cases x with
    | error e => simp [requestLastInvoice, hres]
    | ok w =>
      simp only [requestLastInvoice, hres, finallyBlock]
      split
      · cases hc : env.close <;> simp
      · simp

theorem tryBlock_no_close (js : Runtime) (env : Broker)
    (cuit ptoVta cbteTipo : String) (T : JSNumber) (sched : Schedule) :
    (tryBlock js env cuit ptoVta cbteTipo T sched).trace.countP Op.isClose = 0 := by
  rw [List.countP_eq_zero]
  intro op hop
  rcases env with ⟨c, ch, aq, cs, pb, cl, clo, u⟩
  cases c <;> cases ch <;> cases aq <;> cases cs <;> cases pb <;>
    simp [tryBlock] at hop <;>
    first
      | (rcases hop with h | h | h | h | h | h | h
         all_goals first
           | (subst h; simp [Op.isClose])
           | (rcases waitLoop_ops js _ T _ _ op h with h | h <;> subst h <;>
               simp [Op.isClose]))
      | (rcases hop with h | h | h | h | h <;> subst h <;> simp [Op.isClose])
      | (rcases hop with h | h | h | h <;> subst h <;> simp [Op.isClose])
      | (rcases hop with h | h | h <;> subst h <;> simp [Op.isClose])
      | (rcases hop with h | h <;> subst h <;> simp [Op.isClose])
      | (subst hop; simp [Op.isClose])

theorem tryBlock_connection_of_connect (js : Runtime) (env : Broker)
    (cuit ptoVta cbteTipo : String) (T : JSNumber) (sched : Schedule) :
    (tryBlock js env cuit ptoVta cbteTipo T sched).connection =
      env.connect.isNone := by
  rcases env with ⟨c, ch, aq, cs, pb, cl, clo, u⟩
  cases c <;> cases ch <;> cases aq <;> cases cs <;> cases pb <;> simp [tryBlock]

/-- How often `connection.close` is called: once when the `try` block completes
normally and `connection.closed` is falsy, and never otherwise, in particular never
after a throw. -/
theorem close_count (js : Runtime) (env : Broker)
    (cuit ptoVta cbteTipo : String) (timeout : Option JSNumber) (sched : Schedule) :
    (requestLastInvoice js env cuit ptoVta cbteTipo timeout sched).trace.countP
        Op.isClose =
      (match (tryBlock js env cuit ptoVta cbteTipo (timeout.getD (.finite 30)) sched).result with
        | some (.ok _) => if env.closed then 0 else 1
        | _ => 0) := by
  rw [requestLastInvoice_trace, List.countP_append, tryBlock_no_close]
  cases hres : (tryBlock js env cuit ptoVta cbteTipo (timeout.getD (.finite 30)) sched).result with
  | none => simp
  | some x =>
    cases x with
    | error e =>
      rcases catchLog_cases e with h | h <;> simp [h, Op.isClose, List.countP_cons]
    | ok w =>
      obtain ⟨q, hacq, _⟩ :=
        tryBlock_connection_of_ok js env cuit ptoVta cbteTipo _ sched w hres
      have hc := tryBlock_connection_of_connect js env cuit ptoVta cbteTipo
        (timeout.getD (.finite 30)) sched
      rw [hacq.1] at hc
      cases hcl : env.closed <;> simp [hc, hcl, Op.isClose]

theorem after_try_ops (env : Broker) (conn : Bool) (res : Option (Except JSError JSValue))
    (op : Op)
    (h : op ∈ (match res with
      | none => []
      | some (.error e) => [catchLog e, .exit 1]
      | some (.ok _) => if conn && !env.closed then [Op.close] else [])) :
    op.isPublish = false ∧ op.isConsume = false ∧ op.isPoll = false := by
  cases res with
  | none => simp at h
  | some x =>
    cases x with
    | error e =>
      simp only [List.mem_cons, List.mem_singleton] at h
      rcases h with h | h | h
      · rcases catchLog_cases e with hc | hc <;> rw [h, hc] <;> exact ⟨rfl, rfl, rfl⟩
      · rw [h]; exact ⟨rfl, rfl, rfl⟩
      · simp at h
    | ok w =>
      by_cases hc : (conn && !env.closed) = true
      · simp only [hc, if_true, List.mem_singleton] at h
        rw [h]; exact ⟨rfl, rfl, rfl⟩
      · simp [hc] at h

theorem waitLoop_countP (js : Runtime) (c : String) (T : JSNumber)
    (ticks : List Tick) (r : JSValue) :
    (waitLoop js c T ticks r).1.countP Op.isPublish = 0 ∧
      (waitLoop js c T ticks r).1.countP Op.isConsume = 0 := by
  constructor <;> rw [List.countP_eq_zero] <;> intro op hop <;>
    rcases waitLoop_ops js c T ticks r op hop with h | h <;> rw [h] <;> simp [Op.isPublish,
      Op.isConsume]

/-! ## Unrolling the loop -/

/-- While the loop is still waiting, each of its first `k` iterations is a poll followed
by a sleep, after which it goes on from the value stored by then on the remaining
iterations. -/
theorem waitLoop_unroll (js : Runtime) (c : String) (T : JSNumber) (k : Nat) :
    ∀ (ticks : List Tick) (r : JSValue), k ≤ ticks.length →
      (∀ j, j < k → (deliver js c r (Tick.batch (ticks.take j))).truthy = false ∧
        ∀ t, ticks[j]? = some t → T.exceededBy t.seconds = false) →
      waitLoop js c T ticks r =
        (waiting k ++ (waitLoop js c T (ticks.drop k)
            (deliver js c r (Tick.batch (ticks.take k)))).1,
          (waitLoop js c T (ticks.drop k) (deliver js c r (Tick.batch (ticks.take k)))).2) := by
  induction k with
  | zero =>
    intro ticks r _ _
    simp [waiting, Tick.batch, deliver_nil]
  | succ k ih =>
    intro ticks r hk hwait
    cases ticks with
    | nil => simp at hk
    | cons t rest =>
      have h0 := hwait 0 (Nat.succ_pos k)
      have hr : r.truthy = false := by simpa [Tick.batch, deliver_nil] using h0.1
      have ht : T.exceededBy t.seconds = false := h0.2 t (by simp)
      have hrest : ∀ j, j < k →
          (deliver js c (deliver js c r t.delivered) (Tick.batch (rest.take j))).truthy = false ∧
          ∀ u, rest[j]? = some u → T.exceededBy u.seconds = false := by
        intro j hj
        have hj1 := hwait (j + 1) (Nat.succ_lt_succ hj)
        rw [deliver_batch_succ] at hj1
        exact ⟨hj1.1, fun u hu => hj1.2 u (by simpa using hu)⟩
      rw [waitLoop_step js c T t rest r hr ht, deliver_batch_succ,
        ih rest _ (by simpa using hk) hrest]
      simp [waiting]

/-- A completion of the loop with a value comes from the first test of the loop
condition that found a truthy stored value, reached while the loop was still waiting. -/
theorem waitLoop_ok_inv (js : Runtime) (c : String) (T : JSNumber) :
    ∀ (ticks : List Tick) (r v : JSValue), (waitLoop js c T ticks r).2 = some (.ok v) →
      ∃ k, k ≤ ticks.length ∧
        (∀ j, j < k → (deliver js c r (Tick.batch (ticks.take j))).truthy = false ∧
          ∀ t, ticks[j]? = some t → T.exceededBy t.seconds = false) ∧
        v = deliver js c r (Tick.batch (ticks.take k)) ∧ v.truthy = true := by
  intro ticks
  induction ticks with
  | nil =>
    intro r v h
    by_cases hr : r.truthy = true
    · rw [waitLoop_truthy js c T _ r hr] at h
      have hv : r = v := by simpa using h
      subst hv
      exact ⟨0, le_refl _, fun j hj => absurd hj (Nat.not_lt_zero j),
        by simp [Tick.batch, deliver_nil], hr⟩
    · simp [waitLoop, hr] at h
  | cons t rest ih =>
    intro r v h
    by_cases hr : r.truthy = true
    · rw [waitLoop_truthy js c T _ r hr] at h
      have hv : r = v := by simpa using h
      subst hv
      exact ⟨0, Nat.zero_le _, fun j hj => absurd hj (Nat.not_lt_zero j),
        by simp [Tick.batch, deliver_nil], hr⟩
    · have hr0 : r.truthy = false := by simpa using hr
      by_cases ht : T.exceededBy t.seconds = true
      · rw [waitLoop_timeout js c T t rest r hr0 ht] at h
        simp at h
      · have ht0 : T.exceededBy t.seconds = false := Bool.eq_false_iff.mpr ht
        rw [waitLoop_step js c T t rest r hr0 ht0] at h
        obtain ⟨k, hk, hwait, hv, htr⟩ := ih _ v h
        refine ⟨k + 1, by simpa using hk, ?_, by rw [deliver_batch_succ]; exact hv, htr⟩
        intro j hj
        cases j with
        | zero =>
          exact ⟨by simpa [Tick.batch, deliver_nil] using hr0, fun u hu => by
            have : t = u := by simpa using hu
            rw [← this]; exact ht0⟩
        | succ j =>
          have hj1 := hwait j (Nat.lt_of_succ_lt_succ hj)
          rw [deliver_batch_succ]
          exact ⟨hj1.1, fun u hu => hj1.2 u (by simpa using hu)⟩

theorem stillWaiting_iff (js : Runtime) (c : String) (T : JSNumber) (sched : Schedule)
    (k : Nat) :
    stillWaiting js c T sched k ↔
      ∀ j, j < k →
        (deliver js c (deliver js c .null sched.early)
          (Tick.batch (sched.ticks.take j))).truthy = false ∧
        ∀ t, sched.ticks[j]? = some t → T.exceededBy t.seconds = false := by
  unfold stillWaiting
  constructor
  · intro h j hj
    have := h j hj
    rwa [stored_eq] at this
  · intro h j hj
    rw [stored_eq]
    exact h j hj

/-- The `try` block when the loop reaches its `k`-th test and finds a truthy stored
value there: `k` polls followed by a sleep, one more poll, and the stored value. -/
theorem tryBlock_returns_at (js : Runtime) (env : Broker)
    (cuit ptoVta cbteTipo : String) (T : JSNumber) (sched : Schedule) (q : String) (k : Nat)
    (h : env.acquires q) (hp : env.publish = none) (hk : k ≤ sched.ticks.length)
    (hwait : stillWaiting js env.uuid T sched k)
    (htr : (stored js env.uuid sched k).truthy = true) :
    tryBlock js env cuit ptoVta cbteTipo T sched =
      ⟨sentOps cuit ptoVta cbteTipo q env.uuid ++
          .consoleLog " [x] Sent request for last invoice, waiting for response..." ::
            (waiting k ++ [.poll]),
        true, some (.ok (stored js env.uuid sched k))⟩ := by
  rw [tryBlock_of_acquires js env cuit ptoVta cbteTipo T sched q h hp,
    waitLoop_unroll js env.uuid T k sched.ticks _ hk
      ((stillWaiting_iff js env.uuid T sched k).mp hwait)]
  rw [stored_eq] at htr
  rw [waitLoop_truthy js env.uuid T _ _ htr, stored_eq]
  simp [sentOps]

/-- The `try` block when the loop reaches its `k`-th test and finds there a falsy stored
value and an elapsed time above the timeout: `k` polls followed by a sleep, one more
poll, and the timeout error. -/
theorem tryBlock_throws_at (js : Runtime) (env : Broker)
    (cuit ptoVta cbteTipo : String) (T : JSNumber) (sched : Schedule) (q : String) (k : Nat)
    (t : Tick) (h : env.acquires q) (hp : env.publish = none) (hk : sched.ticks[k]? = some t)
    (hwait : stillWaiting js env.uuid T sched k)
    (hfal : (stored js env.uuid sched k).truthy = false)
    (hT : T.exceededBy t.seconds = true) :
    tryBlock js env cuit ptoVta cbteTipo T sched =
      ⟨sentOps cuit ptoVta cbteTipo q env.uuid ++
          .consoleLog " [x] Sent request for last invoice, waiting for response..." ::
            (waiting k ++ [.poll]),
        true, some (.error (timeoutError js T))⟩ := by
  obtain ⟨hlt, hget⟩ := List.getElem?_eq_some_iff.mp hk
  rw [tryBlock_of_acquires js env cuit ptoVta cbteTipo T sched q h hp,
    waitLoop_unroll js env.uuid T k sched.ticks _ (Nat.le_of_lt hlt)
      ((stillWaiting_iff js env.uuid T sched k).mp hwait)]
  rw [stored_eq] at hfal
  rw [List.drop_eq_getElem_cons hlt, hget, waitLoop_timeout js env.uuid T t _ _ hfal hT]
  simp [sentOps]

/-- After the `try` block completed with a value, the value is returned unless `close`
is called and rejects, in which case the error of `close` is thrown instead. -/
theorem requestLastInvoice_of_ok (js : Runtime) (env : Broker)
    (cuit ptoVta cbteTipo : String) (timeout : Option JSNumber) (sched : Schedule)
    (v : JSValue)
    (h : (tryBlock js env cuit ptoVta cbteTipo (timeout.getD (.finite 30)) sched).result =
      some (.ok v)) :
    (env.closed = true ∨ env.close = none →
      (requestLastInvoice js env cuit ptoVta cbteTipo timeout sched).outcome = .returned v) ∧
    (∀ e, env.closed = false → env.close = some e →
      (requestLastInvoice js env cuit ptoVta cbteTipo timeout sched).outcome = .threw e) := by
  obtain ⟨q, hacq, _⟩ := tryBlock_connection_of_ok js env cuit ptoVta cbteTipo _ sched v h
  have hc := tryBlock_connection_of_connect js env cuit ptoVta cbteTipo
    (timeout.getD (.finite 30)) sched
  rw [hacq.1] at hc
  constructor
  · intro hclose
    simp only [requestLastInvoice, h, finallyBlock, hc]
    rcases hclose with hcl | hcl
    · simp [hcl]
    · cases hcd : env.closed <;> simp [hcl]
  · intro e hcd hcl
    simp [requestLastInvoice, h, finallyBlock, hc, hcd, hcl]

theorem stored_eq_lastMatch (js : Runtime) (c : String) (sched : Schedule) (k : Nat) :
    stored js c sched k =
      (match lastMatch c (sched.deliveredBefore k) with
        | some m => decode js m.content
        | none => .null) := by
  rw [stored, deliver_eq_lastMatch]

/-- A returned value was stored, truthy, at a test of the loop condition that the loop
reached while still waiting. -/
theorem returned_inv (js : Runtime) (env : Broker)
    (cuit ptoVta cbteTipo : String) (timeout : Option JSNumber) (sched : Schedule)
    (v : JSValue)
    (h : (requestLastInvoice js env cuit ptoVta cbteTipo timeout sched).outcome =
      .returned v) :
    ∃ k, k ≤ sched.ticks.length ∧
      stillWaiting js env.uuid (timeout.getD (.finite 30)) sched k ∧
      (stored js env.uuid sched k).truthy = true ∧ v = stored js env.uuid sched k := by
  have hres := tryBlock_of_returned js env cuit ptoVta cbteTipo timeout sched v h
  obtain ⟨q, hacq, hpub⟩ :=
    tryBlock_connection_of_ok js env cuit ptoVta cbteTipo _ sched v hres
  rw [tryBlock_of_acquires js env cuit ptoVta cbteTipo _ sched q hacq hpub] at hres
  obtain ⟨k, hk, hwait, hv, htr⟩ := waitLoop_ok_inv js env.uuid _ sched.ticks _ v hres
  refine ⟨k, hk, (stillWaiting_iff js env.uuid _ sched k).mpr hwait, ?_, ?_⟩
  · rw [stored_eq, ← hv]; exact htr
  · rw [stored_eq]; exact hv

theorem exceededBy_of_negative (T : JSNumber) (s : Int) (hT : T.negative) (hs : 0 ≤ s) :
    T.exceededBy s = true := by
  cases T with
  | finite q =>
    have h1 : q < 0 := hT
    have h2 : (0 : ℚ) ≤ (s : ℚ) := by exact_mod_cast hs
    simp only [JSNumber.exceededBy, decide_eq_true_eq]
    linarith
  | posInf => exact absurd hT (by simp [JSNumber.negative])
  | negInf => rfl
  | nan => exact absurd hT (by simp [JSNumber.negative])

theorem exceededBy_of_nonPositive (T : JSNumber) (s : Int) (hT : T.nonPositive)
    (hs : 1 ≤ s) : T.exceededBy s = true := by
  cases T with
  | finite q =>
    have h1 : q ≤ 0 := hT
    have h2 : (1 : ℚ) ≤ (s : ℚ) := by exact_mod_cast hs
    simp only [JSNumber.exceededBy, decide_eq_true_eq]
    linarith
  | posInf => exact absurd hT (by simp [JSNumber.nonPositive])
  | negInf => rfl
  | nan => exact absurd hT (by simp [JSNumber.nonPositive])

theorem not_exceededBy_zero (T : JSNumber) (hT : ¬ T.negative) :
    T.exceededBy 0 = false := by
  cases T with
  | finite q =>
    have h1 : ¬ q < 0 := hT
    simp only [JSNumber.exceededBy, Int.cast_zero, decide_eq_false_iff_not]
    exact h1
  | posInf => rfl
  | negInf => exact absurd trivial hT
  | nan => rfl

theorem tryBlock_of_acquisitionError (js : Runtime) (env : Broker)
    (cuit ptoVta cbteTipo : String) (T : JSNumber) (sched : Schedule) (e : JSError)
    (h : env.acquisitionError = some e) :
    tryBlock js env cuit ptoVta cbteTipo T sched =
      ⟨env.failedSteps, env.connect.isNone, some (.error e)⟩ := by
  rcases env with ⟨c, ch, aq, cs, pb, cl, clo, u⟩
  cases c <;> cases ch <;> cases aq <;> cases cs <;>
    simp [Broker.acquisitionError] at h <;> simp [tryBlock, Broker.failedSteps, h]

/-! ## Matching and decoding -/

/-- C1: for every expected token `t` and every inbound message `m`, the listener accepts
`m` (whatever was stored before, the stored response afterwards is the decoding of `m`)
if and only if `m.properties.correlationId` is exactly `t`; when the correlation id
differs from `t` in any way (an absent header included) the stored response is left
unchanged. The listener is a total function: no error is raised. -/
theorem onResponse_accepts_iff_token_equal (js : Runtime) (t : String)
    (m : Message) :
    ((∀ r, onResponse js t r m = decode js m.content) ↔ m.correlationId = some t) ∧
    (m.correlationId ≠ some t → ∀ r, onResponse js t r m = r) := by
  refine ⟨⟨fun h => ?_, fun h r => onResponse_of_match js t r m h⟩,
    fun h r => onResponse_of_ne js t r m h⟩
  by_contra hne
  have h1 := h .null
  have h2 := h (.bool true)
  rw [onResponse_of_ne js t _ m hne] at h1 h2
  have h3 : JSValue.null = .bool true := h1.trans h2.symm
  cases h3

theorem onResponse_accepts_iff_token_equal_witness :
    onResponse sampleRuntime "3f2c" (.num 5) ⟨some "3f2d", ascii "0"⟩ = .num 5 :=
  (onResponse_accepts_iff_token_equal sampleRuntime "3f2c" ⟨some "3f2d", ascii "0"⟩).2
    (by decide) (.num 5)

/-- C2 (counterexample): the body with the two bytes ff fe is not valid UTF-8; the
record stored for it has `raw` equal to two U+FFFD characters, the same record as for the
six-byte body ef bf bd ef bf bd, so `raw` does not hold the original body. And when
`close` rejects, a stored decode-failure record is not returned: the call fails with the
error of `close`. -/
theorem raw_is_decoded_text_and_close_may_reject :
    onResponse sampleRuntime "3f2c" .null ⟨some "3f2c", [0xFF, 0xFE]⟩ =
        .obj [("error", .str "Failed to parse response as JSON"),
          ("raw", .str (String.mk [Char.ofNat 0xFFFD, Char.ofNat 0xFFFD]))] ∧
      onResponse sampleRuntime "3f2c" .null
          ⟨some "3f2c", [0xEF, 0xBF, 0xBD, 0xEF, 0xBF, 0xBD]⟩ =
        onResponse sampleRuntime "3f2c" .null ⟨some "3f2c", [0xFF, 0xFE]⟩ ∧
      ([0xEF, 0xBF, 0xBD, 0xEF, 0xBF, 0xBD] : Buffer) ≠ [0xFF, 0xFE] ∧
      requestLastInvoice sampleRuntime closeFailsBroker "23146234399" "0001" "001"
          (some (.finite 30)) (replySchedule 3 1 ⟨some "3f2c", ascii "<html>"⟩) =
        ⟨[.connect, .createChannel, .assertQueue "" true, .consume "amq.gen-1" true,
            .publish "" "arca" (requestMessage "23146234399" "0001" "001") "amq.gen-1" "3f2c",
            .consoleLog " [x] Sent request for last invoice, waiting for response...",
            .poll, .sleep 1000, .poll, .sleep 1000, .poll, .close],
          .threw ⟨none, "Connection closed"⟩⟩ :=
  ⟨rfl, rfl, by decide, rfl⟩

/-- C2 (amended): for every message carrying the expected token whose text
`msg.content.toString()` is not valid JSON, the listener stores the record with `error`
set to the non-empty string "Failed to parse response as JSON" and `raw` equal to that
text (the UTF-8 decoding of the body, not its bytes). When that message is the last
matching one before a poll the loop reaches, the `try` block completes with that record
after that poll, and `requestLastInvoice` returns it as a value when `close` is not
called or does not reject, and throws the error of `close` when it rejects. -/
theorem decode_failure_record_is_returned (js : Runtime)
    (env : Broker) (cuit ptoVta cbteTipo : String) (timeout : Option JSNumber)
    (sched : Schedule) (q : String) (k : Nat) (before after : List Message) (m : Message)
    (r : JSValue)
    (hacq : env.acquires q) (hpub : env.publish = none)
    (hid : m.correlationId = some env.uuid)
    (hbad : js.jsonParse (js.bufferToString m.content) = none)
    (hk : k ≤ sched.ticks.length)
    (hwait : stillWaiting js env.uuid (timeout.getD (.finite 30)) sched k)
    (hm : sched.deliveredBefore k = before ++ m :: after)
    (hafter : ∀ x ∈ after, x.correlationId ≠ some env.uuid) :
    onResponse js env.uuid r m =
        .obj [("error", .str "Failed to parse response as JSON"),
          ("raw", .str (js.bufferToString m.content))] ∧
      "Failed to parse response as JSON" ≠ "" ∧
      tryBlock js env cuit ptoVta cbteTipo (timeout.getD (.finite 30)) sched =
        ⟨sentOps cuit ptoVta cbteTipo q env.uuid ++
            .consoleLog " [x] Sent request for last invoice, waiting for response..." ::
              (waiting k ++ [.poll]),
          true,
          some (.ok (.obj [("error", .str "Failed to parse response as JSON"),
            ("raw", .str (js.bufferToString m.content))]))⟩ ∧
      (env.closed = true ∨ env.close = none →
        (requestLastInvoice js env cuit ptoVta cbteTipo timeout sched).outcome =
          .returned (.obj [("error", .str "Failed to parse response as JSON"),
            ("raw", .str (js.bufferToString m.content))])) ∧
      (∀ e, env.closed = false → env.close = some e →
        (requestLastInvoice js env cuit ptoVta cbteTipo timeout sched).outcome =
          .threw e) := by
  have hdec : decode js m.content =
      .obj [("error", .str "Failed to parse response as JSON"),
        ("raw", .str (js.bufferToString m.content))] := by
    simp [decode, hbad, parseFailure]
  have hst : stored js env.uuid sched k =
      .obj [("error", .str "Failed to parse response as JSON"),
        ("raw", .str (js.bufferToString m.content))] := by
    rw [stored, hm, deliver_of_last js env.uuid .null before after m hid hafter, hdec]
  have htb := tryBlock_returns_at js env cuit ptoVta cbteTipo (timeout.getD (.finite 30))
    sched q k hacq hpub hk hwait (by rw [hst]; rfl)
  rw [hst] at htb
  have hout := requestLastInvoice_of_ok js env cuit ptoVta cbteTipo timeout sched _
    (by rw [htb])
  exact ⟨by rw [onResponse_of_match js env.uuid r m hid, hdec], by decide, htb, hout.1,
    hout.2⟩

theorem decode_failure_record_is_returned_witness :
    (requestLastInvoice sampleRuntime okBroker "23146234399" "0001" "001"
        (some (.finite 30)) (replySchedule 3 1 ⟨some "3f2c", [0xFF, 0xFE]⟩)).outcome =
      .returned
        (.obj [("error", .str "Failed to parse response as JSON"),
          ("raw", .str (sampleRuntime.bufferToString [0xFF, 0xFE]))]) :=
  (decode_failure_record_is_returned sampleRuntime okBroker "23146234399" "0001" "001"
    (some (.finite 30)) (replySchedule 3 1 ⟨some "3f2c", [0xFF, 0xFE]⟩) "amq.gen-1" 2 []
    [] ⟨some "3f2c", [0xFF, 0xFE]⟩ .null ⟨rfl, rfl, rfl, rfl⟩ rfl rfl rfl (by decide)
    (by
      intro j hj
      interval_cases j
      · exact ⟨rfl, fun t ht => by cases ht; rfl⟩
      · exact ⟨rfl, fun t ht => by cases ht; rfl⟩)
    rfl (by simp)).2.2.2.1 (Or.inr rfl)

/-- C10: for every finite sequence of inbound messages processed by the listener from
the empty (null) stored response, the stored response afterwards is the decoding of the
last message of the sequence that carries the expected token, and null when none carries
it. The poll that observes a response is the first one that finds a truthy stored value
while the loop is still waiting: the `try` block then completes, after exactly that many
polls, with the decoding of the last matching message handed over before that poll
(returned to the caller unless `close` rejects); and every value returned to the caller
arises in this way. -/
theorem stored_response_is_last_match (js : Runtime) (c : String)
    (msgs : List Message) (env : Broker) (cuit ptoVta cbteTipo : String)
    (timeout : Option JSNumber) (sched : Schedule) (v : JSValue) :
    deliver js c .null msgs =
        (match lastMatch c msgs with
          | some m => decode js m.content
          | none => .null) ∧
      (∀ q k, env.acquires q → env.publish = none → k ≤ sched.ticks.length →
        stillWaiting js env.uuid (timeout.getD (.finite 30)) sched k →
        (stored js env.uuid sched k).truthy = true →
        tryBlock js env cuit ptoVta cbteTipo (timeout.getD (.finite 30)) sched =
            ⟨sentOps cuit ptoVta cbteTipo q env.uuid ++
                .consoleLog " [x] Sent request for last invoice, waiting for response..." ::
                  (waiting k ++ [.poll]),
              true,
              some (.ok (match lastMatch env.uuid (sched.deliveredBefore k) with
                | some m => decode js m.content
                | none => .null))⟩ ∧
          (env.closed = true ∨ env.close = none →
            (requestLastInvoice js env cuit ptoVta cbteTipo timeout sched).outcome =
              .returned (match lastMatch env.uuid (sched.deliveredBefore k) with
                | some m => decode js m.content
                | none => .null))) ∧
      ((requestLastInvoice js env cuit ptoVta cbteTipo timeout sched).outcome =
          .returned v →
        ∃ k, k ≤ sched.ticks.length ∧
          stillWaiting js env.uuid (timeout.getD (.finite 30)) sched k ∧
          (stored js env.uuid sched k).truthy = true ∧
          v = (match lastMatch env.uuid (sched.deliveredBefore k) with
            | some m => decode js m.content
            | none => .null)) := by
  refine ⟨deliver_eq_lastMatch js c .null msgs, ?_, fun h => ?_⟩
  · intro q k hacq hpub hk hwait htr
    have htb := tryBlock_returns_at js env cuit ptoVta cbteTipo (timeout.getD (.finite 30))
      sched q k hacq hpub hk hwait htr
    rw [stored_eq_lastMatch] at htb
    exact ⟨htb, (requestLastInvoice_of_ok js env cuit ptoVta cbteTipo timeout sched _
      (by rw [htb])).1⟩
  · obtain ⟨k, hk, hwait, htr, hv⟩ :=
      returned_inv js env cuit ptoVta cbteTipo timeout sched v h
    exact ⟨k, hk, hwait, htr, by rw [hv, stored_eq_lastMatch]⟩

theorem stored_response_is_last_match_witness :
    (requestLastInvoice sampleRuntime okBroker "23146234399" "0001" "001"
        (some (.finite 30)) twoReplies).outcome =
      .returned (.obj [("invoice_number", .num 7)]) ∧
    ∃ k, k ≤ twoReplies.ticks.length ∧
      stillWaiting sampleRuntime okBroker.uuid
        ((some (JSNumber.finite 30)).getD (.finite 30)) twoReplies k ∧
      (stored sampleRuntime okBroker.uuid twoReplies k).truthy = true ∧
      JSValue.obj [("invoice_number", .num 7)] =
        (match lastMatch okBroker.uuid (twoReplies.deliveredBefore k) with
          | some m => decode sampleRuntime m.content
          | none => .null) :=
  ⟨((stored_response_is_last_match sampleRuntime "3f2c" twoReplies.early okBroker
      "23146234399" "0001" "001" (some (.finite 30)) twoReplies
      (.obj [("invoice_number", .num 7)])).2.1 "amq.gen-1" 1 ⟨rfl, rfl, rfl, rfl⟩ rfl
      (by decide)
      (by
        intro j hj
        interval_cases j
        exact ⟨rfl, fun t ht => by cases ht; rfl⟩)
      rfl).2 (Or.inr rfl),
    (stored_response_is_last_match sampleRuntime "3f2c" twoReplies.early okBroker
      "23146234399" "0001" "001" (some (.finite 30)) twoReplies
      (.obj [("invoice_number", .num 7)])).2.2 rfl⟩

/-! ## The trace of broker operations -/

/-- C8: over the trace of one call: if any of connect, createChannel, assertQueue or
consume fails, the trace contains no publish; otherwise the trace starts with connect,
createChannel, assertQueue, the single consume registration and then the single publish,
addressed to routing key arca with replyTo the asserted callback queue and correlationId
the token (the one the listener of the wait loop compares against); everything after it,
all polls included, contains neither a publish nor a consume. -/
theorem publish_exactly_once_after_consume (js : Runtime) (env : Broker)
    (cuit ptoVta cbteTipo : String) (timeout : Option JSNumber) (sched : Schedule) :
    (env.acquisitionError ≠ none →
      (requestLastInvoice js env cuit ptoVta cbteTipo timeout sched).trace.countP
        Op.isPublish = 0) ∧
    (env.acquisitionError = none →
      ∃ q post, env.assertQueue = .ok q ∧
        (requestLastInvoice js env cuit ptoVta cbteTipo timeout sched).trace =
          [.connect, .createChannel, .assertQueue "" true, .consume q true,
            .publish "" "arca" (requestMessage cuit ptoVta cbteTipo) q env.uuid] ++ post ∧
        post.countP Op.isPublish = 0 ∧ post.countP Op.isConsume = 0 ∧
        (requestLastInvoice js env cuit ptoVta cbteTipo timeout sched).trace.countP
          Op.isPublish = 1 ∧
        (requestLastInvoice js env cuit ptoVta cbteTipo timeout sched).trace.countP
          Op.isConsume = 1 ∧
        (env.publish = none →
          (∃ rest, post = .consoleLog
            " [x] Sent request for last invoice, waiting for response..." :: .poll :: rest) ∧
          (tryBlock js env cuit ptoVta cbteTipo (timeout.getD (.finite 30)) sched).result =
            (waitLoop js env.uuid (timeout.getD (.finite 30)) sched.ticks
              (deliver js env.uuid .null sched.early)).2)) := by
  constructor
  · intro hfail
    rw [requestLastInvoice_trace, List.countP_append]
    have htail : ∀ (conn : Bool) (res : Option (Except JSError JSValue)),
        (match res with
          | none => []
          | some (.error e) => [catchLog e, .exit 1]
          | some (.ok _) => if conn && !env.closed then [Op.close] else []).countP
            Op.isPublish = 0 := by
      intro conn res
      rw [List.countP_eq_zero]
      intro op hop
      simp [(after_try_ops env conn res op hop).1]
    rw [htail, Nat.add_zero]
    rcases env with ⟨c, ch, aq, cs, pb, cl, clo, u⟩
    cases c <;> cases ch <;> cases aq <;> cases cs <;>
      simp [Broker.acquisitionError] at hfail <;>
      simp [tryBlock, List.countP_cons, Op.isPublish]
  · intro hok
    rcases env with ⟨c, ch, aq, cs, pb, cl, clo, u⟩
    cases c <;> cases ch <;> cases aq <;> cases cs <;>
      simp [Broker.acquisitionError] at hok
    rename_i q
    have key : ∃ post,
        (requestLastInvoice js ⟨none, none, .ok q, none, pb, cl, clo, u⟩ cuit ptoVta
            cbteTipo timeout sched).trace =
          [.connect, .createChannel, .assertQueue "" true, .consume q true,
            .publish "" "arca" (requestMessage cuit ptoVta cbteTipo) q u] ++ post ∧
        post.countP Op.isPublish = 0 ∧ post.countP Op.isConsume = 0 ∧
        (pb = none →
          (∃ rest, post = .consoleLog
            " [x] Sent request for last invoice, waiting for response..." :: .poll :: rest) ∧
          (tryBlock js ⟨none, none, .ok q, none, pb, cl, clo, u⟩ cuit ptoVta cbteTipo
              (timeout.getD (.finite 30)) sched).result =
            (waitLoop js u (timeout.getD (.finite 30)) sched.ticks
              (deliver js u .null sched.early)).2) := by
      cases pb with
      | some e =>
        refine ⟨[catchLog e, .exit 1], by simp [requestLastInvoice, tryBlock], ?_, ?_,
          by simp⟩
        · rcases catchLog_cases e with h | h <;> simp [h, List.countP_cons, Op.isPublish]
        · rcases catchLog_cases e with h | h <;> simp [h, List.countP_cons, Op.isConsume]
      | none =>
        have hacq : Broker.acquires ⟨none, none, .ok q, none, none, cl, clo, u⟩ q :=
          ⟨rfl, rfl, rfl, rfl⟩
        have htr := requestLastInvoice_trace js ⟨none, none, .ok q, none, none, cl, clo, u⟩
          cuit ptoVta cbteTipo timeout sched
        have htb := tryBlock_of_acquires js ⟨none, none, .ok q, none, none, cl, clo, u⟩
          cuit ptoVta cbteTipo (timeout.getD (.finite 30)) sched q hacq rfl
        rw [htb] at htr
        obtain ⟨tl, htl⟩ := waitLoop_head_poll js u (timeout.getD (.finite 30)) sched.ticks
          (deliver js u .null sched.early)
        obtain ⟨hc1, hc2⟩ := waitLoop_countP js u (timeout.getD (.finite 30)) sched.ticks
          (deliver js u .null sched.early)
        have hops := after_try_ops ⟨none, none, .ok q, none, none, cl, clo, u⟩ true
          (waitLoop js u (timeout.getD (.finite 30)) sched.ticks
            (deliver js u .null sched.early)).2
        refine ⟨.consoleLog " [x] Sent request for last invoice, waiting for response..." ::
          ((waitLoop js u (timeout.getD (.finite 30)) sched.ticks
            (deliver js u .null sched.early)).1 ++
          (match (waitLoop js u (timeout.getD (.finite 30)) sched.ticks
            (deliver js u .null sched.early)).2 with
          | none => []
          | some (.error e) => [catchLog e, .exit 1]
          | some (.ok _) => if true && !cl then [Op.close] else [])), ?_, ?_, ?_, ?_⟩
        · rw [htr]; simp
        · rw [List.countP_cons, List.countP_append, hc1]
          have : ∀ l : List Op, (∀ op ∈ l, op.isPublish = false ∧ op.isConsume = false ∧
              op.isPoll = false) → l.countP Op.isPublish = 0 := by
            intro l hl
            rw [List.countP_eq_zero]
            intro op hop
            simp [(hl op hop).1]
          rw [this _ hops]
          simp [Op.isPublish]
        · rw [List.countP_cons, List.countP_append, hc2]
          have : ∀ l : List Op, (∀ op ∈ l, op.isPublish = false ∧ op.isConsume = false ∧
              op.isPoll = false) → l.countP Op.isConsume = 0 := by
            intro l hl
            rw [List.countP_eq_zero]
            intro op hop
            simp [(hl op hop).2.1]
          rw [this _ hops]
          simp [Op.isConsume]
        · intro _
          refine ⟨?_, by rw [htb]⟩
          rw [htl]
          exact ⟨_, rfl⟩
    obtain ⟨post, h1, h2, h3, h4⟩ := key
    refine ⟨q, post, rfl, h1, h2, h3, ?_, ?_, h4⟩
    · rw [h1, List.countP_append, h2]
      simp [List.countP_cons, Op.isPublish]
    · rw [h1, List.countP_append, h3]
      simp [List.countP_cons, Op.isConsume]

theorem publish_exactly_once_after_consume_witness :
    (requestLastInvoice sampleRuntime refusedBroker "23146234399" "0001" "001" (some (.finite 30))
        (quietSchedule 3)).trace.countP Op.isPublish = 0 ∧
      (requestLastInvoice sampleRuntime okBroker "23146234399" "0001" "001" (some (.finite 30))
        (quietSchedule 3)).trace.countP Op.isPublish = 1 :=
  ⟨(publish_exactly_once_after_consume sampleRuntime refusedBroker "23146234399" "0001" "001"
      (some (.finite 30)) (quietSchedule 3)).1 (by decide),
    match (publish_exactly_once_after_consume sampleRuntime okBroker "23146234399" "0001" "001"
      (some (.finite 30)) (quietSchedule 3)).2 rfl with
    | ⟨_, _, _, _, _, _, h, _⟩ => h⟩

/-! ## Replies that are never returned -/

/-- C3 (failing input): a reply that carries the token, arrives in the second second of
a 30 second wait and has the body `0`, which `JSON.parse` accepts, is stored and never
returned: the loop keeps polling, the timeout error is thrown at the poll that reads 31
seconds and the process exits with status 1. The same holds for the bodies `null`,
`false` and the empty string literal. -/
theorem falsy_reply_is_not_returned :
    decode sampleRuntime (ascii "0") = .num 0 ∧
      (requestLastInvoice sampleRuntime okBroker "23146234399" "0001" "001" (some (.finite 30))
        (replySchedule 32 1 ⟨some "3f2c", ascii "0"⟩)).outcome = .exited 1 ∧
      (requestLastInvoice sampleRuntime okBroker "23146234399" "0001" "001" (some (.finite 30))
        (replySchedule 32 1 ⟨some "3f2c", ascii "null"⟩)).outcome = .exited 1 ∧
      (requestLastInvoice sampleRuntime okBroker "23146234399" "0001" "001" (some (.finite 30))
        (replySchedule 32 1 ⟨some "3f2c", ascii "false"⟩)).outcome = .exited 1 ∧
      (requestLastInvoice sampleRuntime okBroker "23146234399" "0001" "001" (some (.finite 30))
        (replySchedule 32 1 ⟨some "3f2c", ascii "\"\""⟩)).outcome = .exited 1 :=
  ⟨rfl, rfl, rfl, rfl, rfl⟩

/-- The end-to-end scenario: the reply with the invoice body arriving in the second
second of a 30 second wait is returned as the decoded mapping, after one `close`. -/
theorem invoice_reply_is_returned :
    requestLastInvoice sampleRuntime okBroker "23146234399" "0001" "001" (some (.finite 30))
        (replySchedule 32 1 ⟨some "3f2c", ascii invoiceBody⟩) =
      ⟨[.connect, .createChannel, .assertQueue "" true, .consume "amq.gen-1" true,
          .publish "" "arca" (requestMessage "23146234399" "0001" "001") "amq.gen-1" "3f2c",
          .consoleLog " [x] Sent request for last invoice, waiting for response...",
          .poll, .sleep 1000, .poll, .sleep 1000, .poll, .close],
        .returned (.obj [("invoice_number", .num 42), ("date", .str "2024-01-01")])⟩ :=
  rfl

/-- C9 (failing input): with timeout 1, a reply that carries the token and has the body
`0` is handed to the listener during the first sleep; at the polls reading 1 and 2
seconds the matched response `0` is stored, yet it is not returned, and the timeout error
is thrown at the poll reading 2 seconds. -/
theorem stored_falsy_match_times_out :
    stored sampleRuntime "3f2c" (replySchedule 4 0 ⟨some "3f2c", ascii "0"⟩) 1 = .num 0 ∧
      stored sampleRuntime "3f2c" (replySchedule 4 0 ⟨some "3f2c", ascii "0"⟩) 2 = .num 0 ∧
      requestLastInvoice sampleRuntime okBroker "23146234399" "0001" "001" (some (.finite 1))
          (replySchedule 4 0 ⟨some "3f2c", ascii "0"⟩) =
        ⟨[.connect, .createChannel, .assertQueue "" true, .consume "amq.gen-1" true,
            .publish "" "arca" (requestMessage "23146234399" "0001" "001") "amq.gen-1" "3f2c",
            .consoleLog " [x] Sent request for last invoice, waiting for response...",
            .poll, .sleep 1000, .poll, .sleep 1000, .poll,
            .consoleError "An error occurred:"
              (some ⟨none, "No response received after 1 seconds"⟩),
            .exit 1],
          .exited 1⟩ :=
  ⟨rfl, rfl, rfl⟩

/-- The order of the two tests in the loop: a truthy stored value ends the loop with that
value whatever the clock reads, and the timeout error is thrown only at a test of the
loop condition that found a falsy stored value. -/
theorem match_tested_before_deadline (js : Runtime) (c : String)
    (T : JSNumber) (ticks : List Tick) (r : JSValue) :
    (r.truthy = true → (waitLoop js c T ticks r).2 = some (.ok r)) ∧
      (∀ e, (waitLoop js c T ticks r).2 = some (.error e) →
        ∃ k t, ticks[k]? = some t ∧ T.exceededBy t.seconds = true ∧
          (deliver js c r (Tick.batch (ticks.take k))).truthy = false) := by
  refine ⟨fun h => by rw [waitLoop_truthy js c T ticks r h], fun e he => ?_⟩
  rcases waitLoop_result_cases js c T ticks r _ he with
    ⟨_, _, hx, _⟩ | ⟨k, t, hk, _, hfal, hT⟩
  · cases hx
  · exact ⟨k, t, hk, hT, hfal⟩

/-! ## Errors end the process -/

/-- C4 (failing input): with timeout 1 and no reply, the timeout error carrying 1 is
thrown at the poll reading 2 seconds, but it does not reach the caller: the `catch`
block logs it and `process.exit(1)` ends the process. -/
theorem timeout_error_does_not_reach_caller :
    requestLastInvoice sampleRuntime okBroker "23146234399" "0001" "001" (some (.finite 1))
        (quietSchedule 3) =
      ⟨[.connect, .createChannel, .assertQueue "" true, .consume "amq.gen-1" true,
          .publish "" "arca" (requestMessage "23146234399" "0001" "001") "amq.gen-1" "3f2c",
          .consoleLog " [x] Sent request for last invoice, waiting for response...",
          .poll, .sleep 1000, .poll, .sleep 1000, .poll,
          .consoleError "An error occurred:"
            (some ⟨none, "No response received after 1 seconds"⟩),
          .exit 1],
        .exited 1⟩ :=
  rfl

/-- C5 (failing input): on the timeout path (timeout 1, no reply) and when
`createChannel` fails after a successful `connect`, the connection was acquired and
`connection.close` is called zero times before the process exits. -/
theorem error_path_skips_close :
    (requestLastInvoice sampleRuntime okBroker "23146234399" "0001" "001" (some (.finite 1))
        (quietSchedule 3)).trace.countP Op.isConnect = 1 ∧
      (requestLastInvoice sampleRuntime okBroker "23146234399" "0001" "001" (some (.finite 1))
        (quietSchedule 3)).trace.countP Op.isClose = 0 ∧
      (requestLastInvoice sampleRuntime okBroker "23146234399" "0001" "001" (some (.finite 1))
        (quietSchedule 3)).outcome = .exited 1 ∧
      (tryBlock sampleRuntime exhaustedBroker "23146234399" "0001" "001" (.finite 30)
        (quietSchedule 3)).connection = true ∧
      requestLastInvoice sampleRuntime exhaustedBroker "23146234399" "0001" "001" (some (.finite 30))
          (quietSchedule 3) =
        ⟨[.connect, .createChannel,
            .consoleError "An error occurred:" (some ⟨none, "No channels left to allocate"⟩),
            .exit 1],
          .exited 1⟩ :=
  ⟨rfl, rfl, rfl, rfl, rfl⟩

/-! ## Timeouts that are not positive -/

/-- C6 (counterexample): with timeout 0 nothing is rejected up front: the connection is
opened, the request is published, the loop polls twice, and the failure is the ordinary
timeout error. -/
theorem zero_timeout_is_not_rejected :
    requestLastInvoice sampleRuntime okBroker "23146234399" "0001" "001" (some (.finite 0))
        (quietSchedule 3) =
      ⟨[.connect, .createChannel, .assertQueue "" true, .consume "amq.gen-1" true,
          .publish "" "arca" (requestMessage "23146234399" "0001" "001") "amq.gen-1" "3f2c",
          .consoleLog " [x] Sent request for last invoice, waiting for response...",
          .poll, .sleep 1000, .poll,
          .consoleError "An error occurred:" (some (timeoutError sampleRuntime (.finite 0))),
          .exit 1],
        .exited 1⟩ ∧
      timeoutError sampleRuntime (.finite 0) =
        ⟨none, "No response received after 0 seconds"⟩ :=
  ⟨rfl, rfl⟩

/-- C6 (amended): a timeout `T ≤ 0` is not validated. When acquisition and publish
succeed the call connects, publishes and enters the wait loop as for any other value.
The loop throws the ordinary timeout error, whose message carries `T` as the template
literal renders it, at the first poll that finds a falsy stored value and an elapsed time
above `T`, every earlier poll being followed by a sleep: that is the first poll of all
when `T < 0`, and when `T = 0` and the first poll reads less than one second it is the
second poll, provided that poll reads at least one second. -/
theorem nonpositive_timeout_enters_wait_loop (js : Runtime)
    (env : Broker) (cuit ptoVta cbteTipo : String) (T : JSNumber) (sched : Schedule)
    (q : String) (hT : T.nonPositive) (hacq : env.acquires q) (hpub : env.publish = none) :
    (∃ rest, (requestLastInvoice js env cuit ptoVta cbteTipo (some T) sched).trace =
        sentOps cuit ptoVta cbteTipo q env.uuid ++
          .consoleLog " [x] Sent request for last invoice, waiting for response..." ::
            .poll :: rest) ∧
      (∀ k t, sched.ticks[k]? = some t → stillWaiting js env.uuid T sched k →
        (stored js env.uuid sched k).truthy = false → T.exceededBy t.seconds = true →
        tryBlock js env cuit ptoVta cbteTipo T sched =
          ⟨sentOps cuit ptoVta cbteTipo q env.uuid ++
              .consoleLog " [x] Sent request for last invoice, waiting for response..." ::
                (waiting k ++ [.poll]),
            true, some (.error (timeoutError js T))⟩) ∧
      (T.negative → ∀ t rest, sched.ticks = t :: rest →
        (stored js env.uuid sched 0).truthy = false →
        tryBlock js env cuit ptoVta cbteTipo T sched =
          ⟨sentOps cuit ptoVta cbteTipo q env.uuid ++
              [.consoleLog " [x] Sent request for last invoice, waiting for response...",
                .poll],
            true, some (.error (timeoutError js T))⟩) ∧
      (¬ T.negative → ∀ t u rest, sched.ticks = t :: u :: rest → t.seconds = 0 →
        1 ≤ u.seconds → (stored js env.uuid sched 0).truthy = false →
        (stored js env.uuid sched 1).truthy = false →
        tryBlock js env cuit ptoVta cbteTipo T sched =
          ⟨sentOps cuit ptoVta cbteTipo q env.uuid ++
              [.consoleLog " [x] Sent request for last invoice, waiting for response...",
                .poll, .sleep 1000, .poll],
            true, some (.error (timeoutError js T))⟩) ∧
      (timeoutError js T).message =
        "No response received after " ++ js.numberToString T ++ " seconds" := by
  have hgen : ∀ k t, sched.ticks[k]? = some t → stillWaiting js env.uuid T sched k →
      (stored js env.uuid sched k).truthy = false → T.exceededBy t.seconds = true →
      tryBlock js env cuit ptoVta cbteTipo T sched =
        ⟨sentOps cuit ptoVta cbteTipo q env.uuid ++
            .consoleLog " [x] Sent request for last invoice, waiting for response..." ::
              (waiting k ++ [.poll]),
          true, some (.error (timeoutError js T))⟩ := fun k t hk hw hf ht =>
    tryBlock_throws_at js env cuit ptoVta cbteTipo T sched q k t hacq hpub hk hw hf ht
  have hsec : ∀ t : Tick, (0 : Int) ≤ t.seconds := fun t => by
    unfold Tick.seconds
    exact Int.ofNat_nonneg _
  refine ⟨?_, hgen, ?_, ?_, rfl⟩
  · obtain ⟨tl, htl⟩ := waitLoop_head_poll js env.uuid T sched.ticks
      (deliver js env.uuid .null sched.early)
    rw [requestLastInvoice_trace]
    simp only [Option.getD_some]
    have htb := tryBlock_of_acquires js env cuit ptoVta cbteTipo T sched q hacq hpub
    simp only [htb, htl, sentOps]
    exact ⟨_, rfl⟩
  · intro hneg t rest hticks hfal
    have h := hgen 0 t (by simp [hticks]) (fun j hj => absurd hj (Nat.not_lt_zero j)) hfal
      (exceededBy_of_negative T t.seconds hneg (hsec t))
    simpa [waiting] using h
  · intro hnn t u rest hticks ht0 hu1 hfal0 hfal1
    have hw : stillWaiting js env.uuid T sched 1 := by
      intro j hj
      have hj0 : j = 0 := by omega
      subst hj0
      refine ⟨hfal0, fun x hx => ?_⟩
      have hx' : t = x := by simpa [hticks] using hx
      rw [← hx', ht0]
      exact not_exceededBy_zero T hnn
    have h := hgen 1 u (by simp [hticks]) hw hfal1
      (exceededBy_of_nonPositive T u.seconds hT hu1)
    simpa [waiting] using h

theorem nonpositive_timeout_enters_wait_loop_witness :
    tryBlock sampleRuntime okBroker "23146234399" "0001" "001" (.finite (-1))
        (quietSchedule 3) =
      ⟨sentOps "23146234399" "0001" "001" "amq.gen-1" okBroker.uuid ++
          [.consoleLog " [x] Sent request for last invoice, waiting for response...",
            .poll],
        true, some (.error (timeoutError sampleRuntime (.finite (-1))))⟩ ∧
    tryBlock sampleRuntime okBroker "23146234399" "0001" "001" (.finite 0)
        (quietSchedule 3) =
      ⟨sentOps "23146234399" "0001" "001" "amq.gen-1" okBroker.uuid ++
          [.consoleLog " [x] Sent request for last invoice, waiting for response...",
            .poll, .sleep 1000, .poll],
        true, some (.error (timeoutError sampleRuntime (.finite 0)))⟩ ∧
    tryBlock sampleRuntime okBroker "23146234399" "0001" "001" .negInf
        (replySchedule 3 0 ⟨some "3f2c", ascii "0"⟩) =
      ⟨sentOps "23146234399" "0001" "001" "amq.gen-1" okBroker.uuid ++
          .consoleLog " [x] Sent request for last invoice, waiting for response..." ::
            (waiting 0 ++ [.poll]),
        true, some (.error (timeoutError sampleRuntime .negInf))⟩ :=
  ⟨(nonpositive_timeout_enters_wait_loop sampleRuntime okBroker "23146234399" "0001" "001"
      (.finite (-1)) (quietSchedule 3) "amq.gen-1" (by norm_num [JSNumber.nonPositive])
      ⟨rfl, rfl, rfl, rfl⟩ rfl).2.2.1 (by norm_num [JSNumber.negative])
      ⟨0, []⟩ [⟨1000, []⟩, ⟨2000, []⟩] rfl rfl,
    (nonpositive_timeout_enters_wait_loop sampleRuntime okBroker "23146234399" "0001" "001"
      (.finite 0) (quietSchedule 3) "amq.gen-1" (by norm_num [JSNumber.nonPositive])
      ⟨rfl, rfl, rfl, rfl⟩ rfl).2.2.2.1 (by norm_num [JSNumber.negative])
      ⟨0, []⟩ ⟨1000, []⟩ [⟨2000, []⟩] rfl rfl (by decide) rfl rfl,
    (nonpositive_timeout_enters_wait_loop sampleRuntime okBroker "23146234399" "0001" "001"
      .negInf (replySchedule 3 0 ⟨some "3f2c", ascii "0"⟩) "amq.gen-1" trivial
      ⟨rfl, rfl, rfl, rfl⟩ rfl).2.1 0 ⟨0, [⟨some "3f2c", ascii "0"⟩]⟩ rfl
      (fun j hj => absurd hj (Nat.not_lt_zero j)) rfl rfl⟩

/-! ## Acquisition failures -/

/-- C7 (counterexample): a refused connection and an exhausted channel limit both leave
the function through `process.exit(1)`: no error value, typed or not, reaches the caller,
and the caller cannot tell the two failures apart. -/
theorem acquisition_errors_are_not_surfaced :
    requestLastInvoice sampleRuntime refusedBroker "23146234399" "0001" "001"
        (some (.finite 30)) (quietSchedule 3) =
      ⟨[.connect, .consoleError "Failed to connect to RabbitMQ" none, .exit 1], .exited 1⟩ ∧
    requestLastInvoice sampleRuntime exhaustedBroker "23146234399" "0001" "001"
        (some (.finite 30)) (quietSchedule 3) =
      ⟨[.connect, .createChannel,
          .consoleError "An error occurred:" (some ⟨none, "No channels left to allocate"⟩),
          .exit 1],
        .exited 1⟩ :=
  ⟨rfl, rfl⟩

/-- C7 (amended): for every failure raised while acquiring resources (connect,
createChannel, assertQueue, consume) the `try` block stops at the failing step and
throws the broker client's own error, unchanged and untyped; the run is the steps up to
the failing one, then the diagnostic, then the end of the `catch` block, and its outcome
is not a thrown error of any kind. The two classes are told apart only in the
diagnostic: "Failed to connect to RabbitMQ" when the error's code is ECONNREFUSED,
"An error occurred:" with the error for every other acquisition failure; two runs that
fail at the same step with different errors have the same outcome and the same
operations before and after the diagnostic. -/
theorem acquisition_failure_is_told_apart_in_log (js : Runtime)
    (env : Broker) (cuit ptoVta cbteTipo : String) (timeout : Option JSNumber)
    (sched : Schedule) (e : JSError) (h : env.acquisitionError = some e) :
    tryBlock js env cuit ptoVta cbteTipo (timeout.getD (.finite 30)) sched =
        ⟨env.failedSteps, env.connect.isNone, some (.error e)⟩ ∧
      requestLastInvoice js env cuit ptoVta cbteTipo timeout sched =
        ⟨env.failedSteps ++ [catchLog e, .exit 1], .exited 1⟩ ∧
      (∀ x, (requestLastInvoice js env cuit ptoVta cbteTipo timeout sched).outcome ≠
        .threw x) ∧
      (e.code = some "ECONNREFUSED" →
        catchLog e = .consoleError "Failed to connect to RabbitMQ" none) ∧
      (e.code ≠ some "ECONNREFUSED" →
        catchLog e = .consoleError "An error occurred:" (some e)) ∧
      (∀ (other : Broker) (e2 : JSError), other.acquisitionError = some e2 →
        other.failedSteps = env.failedSteps →
        ∃ before after,
          (requestLastInvoice js env cuit ptoVta cbteTipo timeout sched).trace =
            before ++ catchLog e :: after ∧
          (requestLastInvoice js other cuit ptoVta cbteTipo timeout sched).trace =
            before ++ catchLog e2 :: after ∧
          (requestLastInvoice js other cuit ptoVta cbteTipo timeout sched).outcome =
            (requestLastInvoice js env cuit ptoVta cbteTipo timeout sched).outcome) := by
  have hrun : ∀ (b : Broker) (x : JSError), b.acquisitionError = some x →
      requestLastInvoice js b cuit ptoVta cbteTipo timeout sched =
        ⟨b.failedSteps ++ [catchLog x, .exit 1], .exited 1⟩ := by
    intro b x hb
    have htb := tryBlock_of_acquisitionError js b cuit ptoVta cbteTipo
      (timeout.getD (.finite 30)) sched x hb
    rw [requestLastInvoice_exits js b cuit ptoVta cbteTipo timeout sched x (by rw [htb]),
      htb]
  refine ⟨tryBlock_of_acquisitionError js env cuit ptoVta cbteTipo _ sched e h,
    hrun env e h, fun x hx => ?_, fun hc => by simp [catchLog, hc],
    fun hc => by simp [catchLog, hc], fun other e2 h2 hsteps => ?_⟩
  · rw [hrun env e h] at hx
    cases hx
  · refine ⟨env.failedSteps, [.exit 1], ?_, ?_, ?_⟩
    · rw [hrun env e h]
    · rw [hrun other e2 h2, hsteps]
    · rw [hrun other e2 h2, hrun env e h]

theorem acquisition_failure_is_told_apart_in_log_witness :
    requestLastInvoice sampleRuntime refusedBroker "23146234399" "0001" "001"
        (some (.finite 30)) (quietSchedule 3) =
      ⟨refusedBroker.failedSteps ++
          [catchLog ⟨some "ECONNREFUSED", "connect ECONNREFUSED 127.0.0.1:5672"⟩, .exit 1],
        .exited 1⟩ ∧
    catchLog ⟨some "ECONNREFUSED", "connect ECONNREFUSED 127.0.0.1:5672"⟩ =
      .consoleError "Failed to connect to RabbitMQ" none ∧
    catchLog ⟨none, "ACCESS_REFUSED"⟩ =
      .consoleError "An error occurred:" (some ⟨none, "ACCESS_REFUSED"⟩) :=
  ⟨(acquisition_failure_is_told_apart_in_log sampleRuntime refusedBroker "23146234399" "0001"
      "001" (some (.finite 30)) (quietSchedule 3)
      ⟨some "ECONNREFUSED", "connect ECONNREFUSED 127.0.0.1:5672"⟩ rfl).2.1,
    (acquisition_failure_is_told_apart_in_log sampleRuntime refusedBroker "23146234399" "0001"
      "001" (some (.finite 30)) (quietSchedule 3)
      ⟨some "ECONNREFUSED", "connect ECONNREFUSED 127.0.0.1:5672"⟩ rfl).2.2.2.1 rfl,
    (acquisition_failure_is_told_apart_in_log sampleRuntime deniedBroker "23146234399" "0001"
      "001" (some (.finite 30)) (quietSchedule 3)
      ⟨none, "ACCESS_REFUSED"⟩ rfl).2.2.2.2.1 (by decide)⟩

end RequestLastInvoice
